import Mathlib

/-!
Verification of the video-processing pipeline of this repository
(`src/youtube`): the resolution policy, processing-options data contract,
workflow orchestration (`shared/workflows.py`), HLS playlist generation and
chunked transcoding (`worker/activities/chunked_transcode.py`), scene
detection (`worker/activities/scene_detection.py`) and thumbnail generation
(`worker/activities/thumbnail.py`).

Conventions of the embedding:
* Python floats are modelled as rationals (`ℚ`); the programs only compare,
  add and subtract them, which is exact.
* Python dicts with a fixed key set are modelled as structures; a key that
  can be absent or `None` is an `Option` field.
* Activities performing I/O are modelled as pure functions of their inputs
  plus an explicit environment (storage contents, subprocess outcomes).
-/

namespace VideoPipeline

/-! ### Timestamp strings (`worker/activities/thumbnail.py`)

`parse_timestamp` accepts three syntactic forms of its string argument:
`HH:MM:SS`, `MM:SS`, and a plain number of seconds.  A well-formed timestamp
string is therefore modelled by a three-constructor inductive; `parse` mirrors
the arithmetic of `parse_timestamp` on each form. -/

inductive Timestamp where
  | hms (h m : Int) (s : ℚ)
  | ms (m : Int) (s : ℚ)
  | secs (s : ℚ)
deriving DecidableEq, Repr

/-- `parse_timestamp` from `thumbnail.py`: `h*3600 + m*60 + s`, `m*60 + s`,
or the plain number of seconds. -/
def parseTimestamp : Timestamp → ℚ
  | .hms h m s => (h : ℚ) * 3600 + (m : ℚ) * 60 + s
  | .ms m s => (m : ℚ) * 60 + s
  | .secs s => s

/-- `format_timestamp` from `thumbnail.py`: `h = int(seconds // 3600)`,
`m = int((seconds % 3600) // 60)`, `s = seconds % 60` rendered as
`HH:MM:SS`.  (The `%05.2f` print rounding of the seconds field is not
modelled; the value carried by the string is the exact remainder.) -/
def formatTimestamp (q : ℚ) : Timestamp :=
  .hms ⌊q / 3600⌋ ⌊(q - 3600 * ⌊q / 3600⌋) / 60⌋ (q - 60 * ⌊q / 60⌋)

/-- `THUMBNAIL_CONFIG["default_timestamp"] = "00:00:05"`. -/
def defaultThumbTimestamp : Timestamp := .hms 0 0 5

/-- `THUMBNAIL_CONFIG["fallback_timestamp"] = "00:00:01"`. -/
def fallbackThumbTimestamp : Timestamp := .hms 0 0 1

/-- `THUMBNAIL_CONFIG["min_video_duration"] = 5.0`. -/
def minVideoDuration : ℚ := 5

/-! ### Processing options (`shared/workflows.py`, lines 50-127) -/

inductive ThumbMode where
  | none
  | auto
  | custom
  | scene_based
deriving DecidableEq, Repr

inductive WatermarkPosition where
  | top_left
  | top_right
  | bottom_left
  | bottom_right
deriving DecidableEq, Repr

inductive QualityPreset where
  | fast
  | medium
  | slow
deriving DecidableEq, Repr

/-- `ThumbnailOptions` dataclass. `custom_timestamp` is a timestamp string. -/
structure ThumbnailOptions where
  mode : ThumbMode := .none
  custom_timestamp : Option Timestamp := Option.none
  custom_image_key : Option String := Option.none
  custom_image_bucket : Option String := Option.none
deriving DecidableEq, Repr

/-- `WatermarkOptions` dataclass. -/
structure WatermarkOptions where
  text : Option String := Option.none
  position : WatermarkPosition := .bottom_right
  font_size : Int := 24
  opacity : ℚ := 1/2
deriving DecidableEq, Repr

/-- `ChapterOptions` dataclass. -/
structure ChapterOptions where
  enabled : Bool := false
  scene_threshold : ℚ := 3/10
  min_duration : Int := 30
  detect_intro : Bool := true
  detect_outro : Bool := true
deriving DecidableEq, Repr

/-- `ProcessingOptions` dataclass. -/
structure ProcessingOptions where
  target_resolutions : List String := []
  thumbnail : ThumbnailOptions := {}
  watermark : Option WatermarkOptions := Option.none
  chapters : ChapterOptions := {}
  quality_preset : QualityPreset := .medium
deriving DecidableEq, Repr

/-- The dictionary shape produced by `ProcessingOptions.to_dict` and consumed
by `ProcessingOptions.from_dict`.  A missing key is `none`; the `watermark`
key holds `None` or a sub-dict; the sub-dicts are well-typed records. -/
structure OptionsDict where
  target_resolutions : Option (List String) := Option.none
  thumbnail : Option ThumbnailOptions := Option.none
  watermark : Option WatermarkOptions := Option.none
  chapters : Option ChapterOptions := Option.none
  quality_preset : Option QualityPreset := Option.none
deriving DecidableEq, Repr

/-- `not data` on the dict: true iff no key is present. -/
def OptionsDict.isEmpty (d : OptionsDict) : Bool :=
  d.target_resolutions.isNone && d.thumbnail.isNone && d.watermark.isNone &&
    d.chapters.isNone && d.quality_preset.isNone

/-- `ProcessingOptions.to_dict`: every key is emitted; `watermark` is emitted
as `None` when absent. -/
def ProcessingOptions.toDict (p : ProcessingOptions) : OptionsDict :=
  { target_resolutions := some p.target_resolutions
    thumbnail := some p.thumbnail
    watermark := p.watermark
    chapters := some p.chapters
    quality_preset := some p.quality_preset }

/-- `ProcessingOptions.from_dict`: an empty dict yields all defaults;
otherwise each key falls back to its dataclass default when absent or falsy
(`data.get("thumbnail")`, `data.get("watermark")`, `data.get("chapters")`
are truthiness tests; a present well-typed sub-dict is non-empty, hence
truthy). -/
def ProcessingOptions.fromDict (d : OptionsDict) : ProcessingOptions :=
  if d.isEmpty then {}
  else
    { target_resolutions := d.target_resolutions.getD []
      thumbnail := d.thumbnail.getD {}
      watermark := d.watermark
      chapters := d.chapters.getD {}
      quality_preset := d.quality_preset.getD .medium }

/-! ### Resolution policy (`shared/workflows.py`, lines 132-179) -/

/-- `RESOLUTION_HEIGHTS` in insertion order. -/
def RESOLUTION_HEIGHTS : List (String × Nat) :=
  [("320p", 320), ("480p", 480), ("720p", 720), ("1080p", 1080)]

/-- Dictionary lookup `RESOLUTION_HEIGHTS[res]` (and the membership test
`res in VALID_RESOLUTIONS`). -/
def resolutionHeight (r : String) : Option Nat :=
  (RESOLUTION_HEIGHTS.find? (fun p => p.1 == r)).map (·.2)

/-- `RESOLUTION_HEIGHTS[res]` where the key is known to be valid
(total variant with junk default, used only under a validity guard). -/
def resolutionHeightD (r : String) : Nat := (resolutionHeight r).getD 0

/-- `sorted(RESOLUTION_HEIGHTS.items(), key=lambda x: -x[1])`: the ladder
ordered by descending height. -/
def ladderDesc : List (String × Nat) :=
  [("1080p", 1080), ("720p", 720), ("480p", 480), ("320p", 320)]

/-- `determine_target_resolutions(source_height, requested)`.  The `requested`
argument is `None` or a list; Python's `if requested:` treats `None` and `[]`
alike, both selecting the auto-detect branch.  In the requested branch the
valid downscales are kept and stably sorted by descending height (Python's
`sorted` is stable; so is `List.mergeSort`). -/
def determineTargetResolutions (sourceHeight : Nat)
    (requested : Option (List String)) : List String :=
  match requested with
  | some l =>
      if l.isEmpty then
        (ladderDesc.filter (fun p => p.2 < sourceHeight)).map (·.1)
      else
        let valid := l.filter (fun r =>
          match resolutionHeight r with
          | some h => h < sourceHeight
          | Option.none => false)
        valid.mergeSort (fun a b => resolutionHeightD b ≤ resolutionHeightD a)
  | Option.none =>
      (ladderDesc.filter (fun p => p.2 < sourceHeight)).map (·.1)

/-! ### Storage paths (`shared/storage.py`, `StoragePaths`) -/

/-- Python `f"{n:04d}"`: decimal rendering zero-padded to at least 4 digits. -/
def pad4 (n : Nat) : String :=
  let s := toString n
  String.mk (List.replicate (4 - s.length) '0') ++ s

/-- `StoragePaths.source_video`. -/
def sourceVideoPath (videoId : String) : String :=
  videoId ++ "/source/source.mp4"

/-- `StoragePaths.source_chunk`. -/
def sourceChunkPath (videoId : String) (chunkIndex : Nat) : String :=
  videoId ++ "/source/chunks/chunk_" ++ pad4 chunkIndex ++ ".mp4"

/-- `StoragePaths.output_segment`. -/
def outputSegmentPath (videoId resolution : String) (segmentIndex : Nat) : String :=
  videoId ++ "/outputs/" ++ resolution ++ "/segments/seg_" ++ pad4 segmentIndex ++ ".ts"

/-- `StoragePaths.variant_playlist`. -/
def variantPlaylistPath (videoId resolution : String) : String :=
  videoId ++ "/outputs/" ++ resolution ++ "/playlist.m3u8"

/-- `StoragePaths.master_playlist`. -/
def masterPlaylistPath (videoId : String) : String :=
  videoId ++ "/outputs/master.m3u8"

/-! ### HLS playlist generation
(`worker/activities/chunked_transcode.py`, `generate_hls_playlist`) -/

/-- `HLS_BANDWIDTH.get(resolution, 1000000)`. -/
def hlsBandwidth (r : String) : Nat :=
  if r = "320p" then 800000
  else if r = "480p" then 1400000
  else if r = "720p" then 2800000
  else if r = "1080p" then 5000000
  else 1000000

/-- `HLS_SEGMENT_DURATION = 4`; the workflow invokes `generate_hls_playlist`
with `args=[video_id, resolution, chunk_count]`, so `segment_duration` is
always this default. -/
def HLS_SEGMENT_DURATION : ℚ := 4

/-- Python `f"{q:.3f}"` on a non-negative value: three decimal places.
(Python rounds the underlying double half-even; on the rationals we round
half-up, which agrees on every value the pipeline produces.) -/
def fmt3 (q : ℚ) : String :=
  let n : Int := ⌊q * 1000 + 1/2⌋
  toString (n / 1000) ++ "." ++
    (let frac := toString (n % 1000).natAbs
     String.mk (List.replicate (3 - frac.length) '0') ++ frac)

/-- Python `f"{n:d}"` truncation `int(segment_duration)` for a non-negative
duration: the floor. -/
def pyInt (q : ℚ) : Int := ⌊q⌋

/-- The relative segment URI written into the variant playlist:
`f"segments/seg_{idx:04d}.ts"`. -/
def segmentFilename (idx : Nat) : String :=
  "segments/seg_" ++ pad4 idx ++ ".ts"

/-- The fixed playlist header lines. -/
def playlistHeader (segmentDuration : ℚ) : List String :=
  ["#EXTM3U",
   "#EXT-X-VERSION:3",
   "#EXT-X-TARGETDURATION:" ++ toString (pyInt segmentDuration + 1),
   "#EXT-X-MEDIA-SEQUENCE:0",
   "#EXT-X-PLAYLIST-TYPE:VOD",
   "#EXT-X-ALLOW-CACHE:YES"]

/-- The per-segment lines: a discontinuity tag before every segment but the
first, then `#EXTINF` and the segment URI, for `idx` in `range(chunk_count)`. -/
def playlistBody (segmentDuration : ℚ) (chunkCount : Nat) : List String :=
  (List.range chunkCount).flatMap (fun idx =>
    (if 0 < idx then ["#EXT-X-DISCONTINUITY"] else []) ++
    ["#EXTINF:" ++ fmt3 segmentDuration ++ ",", segmentFilename idx])

/-- The full `.m3u8` content as a list of lines (the code joins them with
newlines before uploading). -/
def playlistLines (segmentDuration : ℚ) (chunkCount : Nat) : List String :=
  playlistHeader segmentDuration ++ playlistBody segmentDuration chunkCount ++
    ["#EXT-X-ENDLIST"]

/-- Success dictionary of `generate_hls_playlist`, extended with the uploaded
playlist content (the activity's effect on storage). -/
structure PlaylistOk where
  video_id : String
  resolution : String
  playlist_key : String
  segment_count : Nat
  bandwidth : Nat
  uploaded_lines : List String
deriving DecidableEq, Repr

/-- `generate_hls_playlist(video_id, resolution, chunk_count,
segment_duration)`.  `segExists` is the storage existence capability
(`storage.file_exists("videos", key)`); `uploadOk` the outcome of the
playlist upload.  The activity raises (here: `Except.error`) when a segment
is missing or the upload fails, and otherwise uploads the playlist and
returns the success dict. -/
def generateHlsPlaylist (segExists : String → Bool) (uploadOk : Bool)
    (videoId resolution : String) (chunkCount : Nat) (segmentDuration : ℚ) :
    Except String PlaylistOk :=
  if !((List.range chunkCount).filter
      (fun idx => !(segExists (outputSegmentPath videoId resolution idx)))).isEmpty then
    .error ("Missing segments for " ++ resolution)
  else if !uploadOk then
    .error ("Failed to upload playlist for " ++ resolution)
  else
    .ok { video_id := videoId
          resolution := resolution
          playlist_key := variantPlaylistPath videoId resolution
          segment_count := chunkCount
          bandwidth := hlsBandwidth resolution
          uploaded_lines := playlistLines segmentDuration chunkCount }

/-- An m3u8 line is a tag/comment iff it starts with `#`; any other line is
a media URI.  (Statement-side extraction used to phrase C6.) -/
def isTagLine (l : String) : Bool := l.data.head? == some '#'

/-- The segment URIs of a playlist, in file order. -/
def segmentUris (lines : List String) : List String :=
  lines.filter (fun l => !(isTagLine l))

/-! ### Scene detection (`worker/activities/scene_detection.py`) -/

/-- `Chapter` dataclass. -/
structure Chapter where
  index : Nat
  start_time : ℚ
  end_time : ℚ
  duration : ℚ
  title : String
  scene_score : ℚ
  is_intro : Bool := false
  is_outro : Bool := false
deriving DecidableEq, Repr

/-- The single full-video chapter used for short videos and for the
no-scenes fallback. -/
def fullVideoChapter (duration : ℚ) : Chapter :=
  { index := 0, start_time := 0, end_time := duration, duration := duration,
    title := "Full Video", scene_score := 1 }

/-- The merge loop of `detect_scenes` step 4: starting from `[0.0]`, append
each time that is at least `min_chapter_duration` past the last kept time.
The accumulator is kept in reverse (most recent first). -/
def mergeGo (minDur : ℚ) : List ℚ → List ℚ → List ℚ
  | rev, [] => rev
  | rev, t :: ts =>
      if minDur ≤ t - rev.headD 0 then mergeGo minDur (t :: rev) ts
      else mergeGo minDur rev ts

/-- `merged_times` after the merge loop and the final fixup: the loop runs
over `[0.0] + scene timestamps + [video_duration]`; then, if the last kept
time is not the duration, it is replaced by the duration when the tail gap
is shorter than the minimum, and otherwise the duration is appended. -/
def mergedTimes (minDur duration : ℚ) (sceneTimestamps : List ℚ) : List ℚ :=
  let rev := mergeGo minDur [0] (sceneTimestamps ++ [duration])
  let rev' :=
    match rev with
    | [] => []
    | last :: rest =>
        if last = duration then last :: rest
        else if duration - last < minDur then duration :: rest
        else duration :: last :: rest
  rev'.reverse

/-- Step 5 of `detect_scenes`: one chapter per consecutive pair of merged
times, with intro/outro labelling of the first/last chapter when its
duration is at most 60 seconds. -/
def chaptersFromTimes (detectIntroB detectOutroB : Bool) (times : List ℚ) :
    List Chapter :=
  (List.range (times.length - 1)).map (fun i =>
    let start := times.getD i 0
    let stop := times.getD (i + 1) 0
    let dur := stop - start
    let isIntro := detectIntroB && i == 0 && decide (dur ≤ 60)
    let isOutro := detectOutroB && i == times.length - 2 && decide (dur ≤ 60)
    { index := i, start_time := start, end_time := stop, duration := dur,
      title :=
        if isIntro then "Introduction"
        else if isOutro then "Outro"
        else "Chapter " ++ toString (i + 1),
      scene_score := 1, is_intro := isIntro, is_outro := isOutro })

/-- The success dictionary of `detect_scenes` (spread of
`SceneDetectionResult.to_dict()` plus `success`/`error`). -/
structure SceneRes where
  video_id : String
  total_duration : ℚ
  scene_count : Nat
  chapters : List Chapter
  threshold_used : ℚ
  success : Bool
  error : Option String := Option.none
deriving DecidableEq, Repr

/-- `detect_scenes(video_id, threshold, min_chapter_duration, detect_intro,
detect_outro, video_duration)` on the success path, with the raw scene
timestamps parsed from the FFmpeg output supplied as `sceneTimestamps` (the
subprocess is the environment).  A video shorter than twice the minimum
chapter duration yields a single full-video chapter; otherwise the
timestamps are merged and turned into chapters, with a full-video fallback
when no chapters result.  The failure paths (download/subprocess errors)
return `success=False` with no chapters and are not modelled. -/
def detectScenes (videoId : String) (threshold minDur : ℚ)
    (detectIntroB detectOutroB : Bool) (duration : ℚ)
    (sceneTimestamps : List ℚ) : SceneRes :=
  if duration < minDur * 2 then
    { video_id := videoId, total_duration := duration, scene_count := 1,
      chapters := [fullVideoChapter duration], threshold_used := threshold,
      success := true }
  else
    let times := mergedTimes minDur duration sceneTimestamps
    let cs := chaptersFromTimes detectIntroB detectOutroB times
    let cs := if cs.isEmpty then [fullVideoChapter duration] else cs
    { video_id := videoId, total_duration := duration,
      scene_count := cs.length, chapters := cs, threshold_used := threshold,
      success := true }

/-! ### Thumbnail timestamp selection
(`worker/activities/thumbnail.py`, `generate_thumbnail` step 2) -/

/-- Step 2 of `generate_thumbnail`: the timestamp at which the frame is
extracted.  For `custom` mode with a supplied timestamp, a known (truthy,
i.e. non-zero) duration clamps a timestamp at or past the end to
`max(0, video_duration - 1)`; otherwise the caller's timestamp is used
unchanged.  All other modes use the default timestamp, or the fallback for
videos shorter than `min_video_duration`. -/
def determineThumbTimestamp (mode : ThumbMode)
    (customTimestamp : Option Timestamp) (videoDuration : Option ℚ) :
    Timestamp :=
  match mode, customTimestamp with
  | .custom, some ts =>
      match videoDuration with
      | some d =>
          if d ≠ 0 then
            if d ≤ parseTimestamp ts then formatTimestamp (max 0 (d - 1))
            else ts
          else ts
      | Option.none => ts
  | _, _ =>
      match videoDuration with
      | some d =>
          if d ≠ 0 ∧ d < minVideoDuration then fallbackThumbTimestamp
          else defaultThumbTimestamp
      | Option.none => defaultThumbTimestamp

/-! ### Workflow orchestration (`shared/workflows.py`, `VideoWorkflow.run`)

The workflow is a deterministic function of its inputs and of the outcomes
of the activities it awaits.  Those outcomes form the `Env` record: an
activity that raises (`ActivityError`, or an exception collected by
`asyncio.gather(..., return_exceptions=True)`) is an `Except.error` carrying
the message; a normal return is `Except.ok` of the returned dictionary. -/

/-- The metadata dictionary fields the workflow reads
(`metadata.get("height"/"width"/"duration")`). -/
structure Metadata where
  width : Nat := 0
  height : Nat := 0
  duration : ℚ := 0
deriving DecidableEq, Repr

/-- A chunk entry of the split result (`{"index": ..., "key": ...,
"size_bytes": ...}`). -/
structure Chunk where
  index : Nat
  key : String
  size_bytes : Nat := 0
deriving DecidableEq, Repr

/-- The success dictionary of `split_video`. -/
structure SplitResult where
  chunks : List Chunk := []
  chunk_count : Nat := 0
  manifest_key : String := ""
deriving DecidableEq, Repr

/-- The success dictionary of `transcode_chunk` (fields the workflow could
read). -/
structure TranscodeOk where
  chunk_index : Nat
  resolution : String
  output_key : String
deriving DecidableEq, Repr

/-- The success dictionary of `generate_hls_playlist` as consumed by the
workflow (a variant). -/
structure VariantOk where
  resolution : String
  playlist_key : String
  segment_count : Nat
  bandwidth : Nat
deriving DecidableEq, Repr

/-- The success dictionary of `generate_master_playlist`. -/
structure MasterOk where
  master_playlist_key : String
deriving DecidableEq, Repr

/-- The success dictionary of `generate_chapter_files`. -/
structure ChapterFilesOk where
  json_key : String
  vtt_key : String
deriving DecidableEq, Repr

/-- The dictionary returned by `generate_thumbnail` /
`upload_custom_thumbnail` as consumed by the workflow. -/
structure ThumbRes where
  success : Bool
  thumbnail_key : Option String := Option.none
  thumbnail_bucket : Option String := Option.none
  mode : Option String := Option.none
  error : Option String := Option.none
deriving DecidableEq, Repr

/-- Outcomes of all awaited activities. -/
structure Env where
  downloadOutcome : Except String Unit
  metadataOutcome : Except String Metadata
  thumbnailOutcome : Except String ThumbRes
  sceneOutcome : Except String SceneRes
  splitOutcome : Except String SplitResult
  transcodeOutcome : String → Nat → Except String TranscodeOk
  playlistOutcome : String → Except String VariantOk
  masterOutcome : Except String MasterOk
  chapterFilesOutcome : Except String ChapterFilesOk

/-- A warning entry `{"component": ..., "message": ..., "recoverable": True}`. -/
structure WarningEntry where
  component : String
  message : String
  recoverable : Bool := true
deriving DecidableEq, Repr

/-- An error entry: transcode errors carry `chunk_index`; playlist and
master errors do not (`chunk_index = none` models the absent key). -/
structure ErrorEntry where
  resolution : String
  chunk_index : Option Nat
  message : String
deriving DecidableEq, Repr

/-- One entry of the final result's `hls.variants` list. -/
structure HlsVariantEntry where
  resolution : String
  playlist : String
  bandwidth : Option Nat
  segment_count : Option Nat
deriving DecidableEq, Repr

/-- The final result's `hls` dictionary. -/
structure HlsInfo where
  master_playlist : Option String
  variants : List HlsVariantEntry
deriving DecidableEq, Repr

/-- The `thumbnail` field of a result: early returns carry the raw activity
dictionary; the final return carries the summarized
`{key, bucket, mode}`. -/
inductive ThumbnailField where
  | raw : ThumbRes → ThumbnailField
  | summary (key : Option String) (bucket : String) (mode : Option String) :
      ThumbnailField
deriving DecidableEq, Repr

/-- The `chapters` field of a result: the empty-target return carries the
raw scene-detection dictionary; the final return carries the summarized
`{count, json_key, vtt_key, chapters}`. -/
inductive ChaptersField where
  | raw : SceneRes → ChaptersField
  | summary (count : Nat) (json_key vtt_key : Option String)
      (chapters : List Chapter) : ChaptersField
deriving DecidableEq, Repr

/-- The dictionary returned by `VideoWorkflow.run`.  A field holds `none`
both when the corresponding key is absent from the particular return
statement and when the key is present with value `None`. -/
structure RunResult where
  success : Bool
  video_id : String
  stage : Option String := Option.none
  error : Option String := Option.none
  errors : Option (List ErrorEntry) := Option.none
  warnings : Option (List WarningEntry) := Option.none
  metadata : Option Metadata := Option.none
  chunk_count : Option Nat := Option.none
  hls : Option HlsInfo := Option.none
  message : Option String := Option.none
  thumbnail : Option ThumbnailField := Option.none
  chapters : Option ChaptersField := Option.none
deriving DecidableEq, Repr

/-- Stage 6 fan-out: one task per (resolution, chunk) pair, resolutions
outermost, identified by `(resolution, chunk["index"])`. -/
def transcodeTasks (targets : List String) (chunks : List Chunk) :
    List (String × Nat) :=
  targets.flatMap (fun res => chunks.map (fun c => (res, c.index)))

/-- The `transcode_errors` list: one entry per task whose outcome is an
exception, in task order. -/
def transcodeErrorsOf (env : Env) (tasks : List (String × Nat)) :
    List ErrorEntry :=
  tasks.filterMap (fun p =>
    match env.transcodeOutcome p.1 p.2 with
    | .error e => some { resolution := p.1, chunk_index := some p.2, message := e }
    | .ok _ => Option.none)

/-- `successful_by_resolution[res]`: the number of successful tasks carrying
this resolution. -/
def successCount (env : Env) (tasks : List (String × Nat)) (res : String) :
    Nat :=
  tasks.countP (fun p => p.1 == res && (env.transcodeOutcome p.1 p.2).isOk)

/-- `complete_resolutions`: the keys of `successful_by_resolution` (first
occurrences of `target_resolutions`, in order) whose successful count equals
`chunk_count`. -/
def completeResolutions (env : Env) (targets : List String)
    (chunks : List Chunk) (chunkCount : Nat) : List String :=
  targets.eraseDups.filter (fun res =>
    successCount env (transcodeTasks targets chunks) res == chunkCount)

/-- Stage 7 fan-out over the surviving resolutions: the successful variant
results in resolution order, and the playlist error entries in resolution
order. -/
def playlistPhase (env : Env) (targets : List String) :
    List VariantOk × List ErrorEntry :=
  (targets.filterMap (fun res => (env.playlistOutcome res).toOption),
   targets.filterMap (fun res =>
     match env.playlistOutcome res with
     | .error e => some { resolution := res, chunk_index := Option.none, message := e }
     | .ok _ => Option.none))

/-- `warnings if warnings else None`. -/
def warningsField (ws : List WarningEntry) : Option (List WarningEntry) :=
  if ws.isEmpty then Option.none else some ws

/-- Stage 7, 8 and the final result: playlist fan-out over the surviving
resolutions, the master playlist (only when some variant succeeded; its
failure appends a `master` error entry), conditional chapter-file generation
(its failure appends a `chapter_files` warning), and the final result
dictionary.  Returns the result together with the executed-stage trace. -/
def finalizeStages (videoId : String) (md : Metadata)
    (thumbRes : Option ThumbRes) (sceneRes : Option SceneRes)
    (warnings0 : List WarningEntry) (env : Env) (chunkCount : Nat)
    (terrs : List ErrorEntry) (targetsLeft : List String) :
    RunResult × List String :=
  let variants := (playlistPhase env targetsLeft).1
  let perrs0 := (playlistPhase env targetsLeft).2
  let masterResult : Option MasterOk :=
    if variants.isEmpty then Option.none else env.masterOutcome.toOption
  let perrs := perrs0 ++
    (if variants.isEmpty then []
     else
       match env.masterOutcome with
       | .ok _ => []
       | .error e =>
           [{ resolution := "master", chunk_index := Option.none, message := e }])
  let chapterFilesWanted :=
    match sceneRes with
    | some s => s.success && !s.chapters.isEmpty
    | Option.none => false
  let chapterFiles : Option ChapterFilesOk :=
    if chapterFilesWanted then env.chapterFilesOutcome.toOption else Option.none
  let warnings1 := warnings0 ++
    (if chapterFilesWanted then
       match env.chapterFilesOutcome with
       | .ok _ => []
       | .error e => [{ component := "chapter_files", message := e }]
     else [])
  let allErrors := terrs ++ perrs
  ({ success := !variants.isEmpty, video_id := videoId,
     metadata := some md, chunk_count := some chunkCount,
     hls :=
       if variants.isEmpty then Option.none
       else some
         { master_playlist := masterResult.map (·.master_playlist_key),
           variants := variants.map (fun v =>
             { resolution := v.resolution, playlist := v.playlist_key,
               bandwidth := some v.bandwidth,
               segment_count := some v.segment_count }) },
     thumbnail :=
       match thumbRes with
       | some r =>
           if r.success then
             some (.summary r.thumbnail_key
               (r.thumbnail_bucket.getD "thumbnails") r.mode)
           else Option.none
       | Option.none => Option.none,
     chapters :=
       match sceneRes with
       | some s =>
           if s.success then
             some (.summary s.scene_count
               (chapterFiles.map (·.json_key))
               (chapterFiles.map (·.vtt_key)) s.chapters)
           else Option.none
       | Option.none => Option.none,
     warnings := warningsField warnings1,
     errors := if allErrors.isEmpty then Option.none else some allErrors },
   ["determine_resolutions", "split", "transcode", "playlists"] ++
     (if variants.isEmpty then [] else ["master"]) ++
     (if chapterFilesWanted then ["chapter_files"] else []) ++
     ["finalize"])

/-- Stages 4-8 and the final result, entered with the parsed options, the
metadata, the optional-branch results and the warnings collected so far:
empty target list returns success immediately; a split failure is fatal; if
some transcode task failed, either no resolution is complete (fatal) or the
complete resolutions alone proceed to the playlist stage. -/
def runFromStage4 (videoId : String) (opts : ProcessingOptions)
    (md : Metadata) (thumbRes : Option ThumbRes) (sceneRes : Option SceneRes)
    (warnings0 : List WarningEntry) (env : Env) :
    RunResult × List String :=
  let targets := determineTargetResolutions md.height (some opts.target_resolutions)
  if targets.isEmpty then
    ({ success := true, video_id := videoId, metadata := some md,
       thumbnail := thumbRes.map .raw, chapters := sceneRes.map .raw,
       hls := Option.none,
       message := some "Source video is already at minimum resolution, no transcoding needed",
       warnings := warningsField warnings0 },
     ["determine_resolutions"])
  else
    match env.splitOutcome with
    | .error e =>
        ({ success := false, video_id := videoId, stage := some "split",
           error := some e, thumbnail := thumbRes.map .raw,
           warnings := warningsField warnings0 },
         ["determine_resolutions", "split"])
    | .ok sp =>
        let terrs := transcodeErrorsOf env (transcodeTasks targets sp.chunks)
        if terrs.isEmpty then
          finalizeStages videoId md thumbRes sceneRes warnings0 env
            sp.chunk_count terrs targets
        else
          if (completeResolutions env targets sp.chunks sp.chunk_count).isEmpty then
            ({ success := false, video_id := videoId, stage := some "transcode",
               error := some ("No resolution fully transcoded. Errors: " ++
                 toString terrs.length),
               errors := some terrs, thumbnail := thumbRes.map .raw,
               warnings := warningsField warnings0 },
             ["determine_resolutions", "split", "transcode"])
          else
            finalizeStages videoId md thumbRes sceneRes warnings0 env
              sp.chunk_count terrs
              (completeResolutions env targets sp.chunks sp.chunk_count)

/-- Stage 3, branch A: the thumbnail branch result, the warnings it
contributes, and its trace entry.  When the mode is `custom` with an
uploaded image the workflow runs `upload_custom_thumbnail`, otherwise
`generate_thumbnail`; both return the same dictionary shape, modelled by the
single `thumbnailOutcome`. -/
def thumbBranch (opts : ProcessingOptions) (env : Env) :
    Option ThumbRes × List WarningEntry × List String :=
  if opts.thumbnail.mode != ThumbMode.none then
    match env.thumbnailOutcome with
    | .error e =>
        (Option.none, [{ component := "thumbnail", message := e }], ["thumbnail"])
    | .ok r =>
        (some r,
         if r.success then []
         else [{ component := "thumbnail",
                 message := r.error.getD "Unknown error" }],
         ["thumbnail"])
  else (Option.none, [], [])

/-- Stage 3, branch B: the scene-detection branch result, its warnings and
its trace entry. -/
def sceneBranch (opts : ProcessingOptions) (env : Env) :
    Option SceneRes × List WarningEntry × List String :=
  if opts.chapters.enabled then
    match env.sceneOutcome with
    | .error e =>
        (Option.none, [{ component := "scene_detection", message := e }],
         ["scene_detection"])
    | .ok r =>
        (some r,
         if r.success then []
         else [{ component := "scene_detection",
                 message := r.error.getD "Unknown error" }],
         ["scene_detection"])
  else (Option.none, [], [])

/-- The trace entry of stage 1. -/
def dlTrace (youtubeUrl : Option String) : List String :=
  match youtubeUrl with
  | some _ => ["download"]
  | Option.none => []

/-- `VideoWorkflow.run(video_id, youtube_url, options)`: stage 1 (download,
only when a URL is given; fatal on failure), stage 2 (metadata; fatal on
failure), stage 3 (both optional branches, failures downgraded to warnings,
thumbnail warnings first, matching `task_names` order), then stages 4-8. -/
def runVideoWorkflow (videoId : String) (youtubeUrl : Option String)
    (options : Option OptionsDict) (env : Env) : RunResult × List String :=
  let opts := ProcessingOptions.fromDict (options.getD {})
  let downloadStep : Except String Unit :=
    match youtubeUrl with
    | some _ => env.downloadOutcome
    | Option.none => .ok ()
  match downloadStep with
  | .error e =>
      ({ success := false, video_id := videoId, stage := some "download",
         error := some e }, dlTrace youtubeUrl)
  | .ok _ =>
      match env.metadataOutcome with
      | .error e =>
          ({ success := false, video_id := videoId, stage := some "metadata",
             error := some e }, dlTrace youtubeUrl ++ ["metadata"])
      | .ok md =>
          let tb := thumbBranch opts env
          let sb := sceneBranch opts env
          let out := runFromStage4 videoId opts md tb.1 sb.1 (tb.2.1 ++ sb.2.1) env
          (out.1, dlTrace youtubeUrl ++ ["metadata"] ++ tb.2.2 ++ sb.2.2 ++ out.2)

/-- The target-resolution list a run computes at stage 4. -/
def runTargets (options : Option OptionsDict) (md : Metadata) : List String :=
  determineTargetResolutions md.height
    (some (ProcessingOptions.fromDict (options.getD {})).target_resolutions)

/-- An optional branch "failed": its activity raised (after retries) or it
returned a `success=False` dictionary.  (Thumbnail form.) -/
def thumbFailed (o : Except String ThumbRes) : Prop :=
  (∃ e, o = .error e) ∨ ∃ r, o = .ok r ∧ r.success = false

/-- An optional branch "failed": scene-detection form. -/
def sceneFailed (o : Except String SceneRes) : Prop :=
  (∃ e, o = .error e) ∨ ∃ r, o = .ok r ∧ r.success = false

/-! ### Concrete environments (instantiations used in closed statements) -/

/-- `n` chunks as `split_video` produces them. -/
def wChunks (n : Nat) : List Chunk :=
  (List.range n).map (fun i => { index := i, key := sourceChunkPath "vid" i })

/-- A successful `transcode_chunk` outcome. -/
def okTranscode (r : String) (i : Nat) : Except String TranscodeOk :=
  .ok { chunk_index := i, resolution := r, output_key := outputSegmentPath "vid" r i }

/-- A successful `generate_hls_playlist` outcome for a 10-chunk video. -/
def okVariant (r : String) : Except String VariantOk :=
  .ok { resolution := r, playlist_key := variantPlaylistPath "vid" r,
        segment_count := 10, bandwidth := hlsBandwidth r }

/-- A fully successful environment: 1920×1080 source, 10 chunks, every
activity succeeding. -/
def baseEnv : Env :=
  { downloadOutcome := .ok (),
    metadataOutcome := .ok { width := 1920, height := 1080, duration := 40 },
    thumbnailOutcome := .ok { success := true, thumbnail_key := some "vid/thumbnail.jpg", thumbnail_bucket := some "thumbnails", mode := some "auto" },
    sceneOutcome := .ok { video_id := "vid", total_duration := 40, scene_count := 1, chapters := [fullVideoChapter 40], threshold_used := 3/10, success := true },
    splitOutcome := .ok { chunks := wChunks 10, chunk_count := 10, manifest_key := "vid/source/manifest.json" },
    transcodeOutcome := okTranscode,
    playlistOutcome := okVariant,
    masterOutcome := .ok { master_playlist_key := masterPlaylistPath "vid" },
    chapterFilesOutcome := .ok { json_key := "vid/outputs/chapters.json", vtt_key := "vid/outputs/chapters.vtt" } }

/-- The spec's partial-failure scenario: chunk 5 of 720p fails after
retries, everything else succeeds. -/
def envPartial : Env :=
  { baseEnv with transcodeOutcome := fun r i =>
      if r = "720p" ∧ i = 5 then .error "transcode failed" else okTranscode r i }

/-- The partial-failure scenario with every playlist upload failing. -/
def envPartialNoPlaylists : Env :=
  { envPartial with playlistOutcome := fun _ => .error "upload failed" }

/-- Every transcode work unit failing. -/
def envAllFail : Env :=
  { baseEnv with transcodeOutcome := fun _ _ => .error "transcode failed" }

/-- A 480×270 source, everything else as in `baseEnv`. -/
def envLowRes : Env :=
  { baseEnv with metadataOutcome := .ok { width := 480, height := 270, duration := 60 } }

/-- Both optional branches failing: the thumbnail activity raises, scene
detection returns `success=False`. -/
def envBranchesFail : Env :=
  { baseEnv with
      thumbnailOutcome := .error "boom",
      sceneOutcome := .ok { video_id := "vid", total_duration := 40, scene_count := 0, chapters := [], threshold_used := 3/10, success := false, error := some "scene detection failed" } }

/-- Options requesting only 1080p. -/
def optd1080 : Option OptionsDict := some { target_resolutions := some ["1080p"] }

/-- Options enabling the thumbnail (auto) and chapter branches. -/
def optdBranches : Option OptionsDict :=
  some { thumbnail := some { mode := ThumbMode.auto },
         chapters := some { enabled := true } }

/-! ## Theorems -/

/-- C3: no upscaling.  Every resolution name returned by
`determine_target_resolutions` for a positive source height, whatever the
requested list (empty, absent or arbitrary), has a ladder pixel height
strictly less than the source height. -/
theorem determine_target_resolutions_no_upscale (sourceHeight : Nat)
    (hpos : 0 < sourceHeight) (requested : Option (List String)) :
    ∀ r ∈ determineTargetResolutions sourceHeight requested,
      ∃ hgt, resolutionHeight r = some hgt ∧ hgt < sourceHeight := by
  have auto : ∀ r ∈ (ladderDesc.filter (fun p => p.2 < sourceHeight)).map (·.1),
      ∃ hgt, resolutionHeight r = some hgt ∧ hgt < sourceHeight := by
    intro r hr
    rcases List.mem_map.1 hr with ⟨p, hp, rfl⟩
    have hmem : p ∈ ladderDesc := List.mem_of_mem_filter hp
    have hlt' : p.2 < sourceHeight := by
      have h := List.of_mem_filter hp
      simpa using h
    simp only [ladderDesc, List.mem_cons, List.not_mem_nil, or_false] at hmem
    rcases hmem with rfl | rfl | rfl | rfl <;> exact ⟨_, rfl, hlt'⟩
  intro r hr
  match requested with
  | Option.none => exact auto r hr
  | some l =>
      by_cases hl : l.isEmpty
      · simp only [determineTargetResolutions, hl, if_true] at hr
        exact auto r hr
      · simp only [determineTargetResolutions, hl, if_false] at hr
        have hr' : r ∈ l.filter (fun r =>
            match resolutionHeight r with
            | some h => decide (h < sourceHeight)
            | Option.none => false) := List.mem_mergeSort.1 hr
        have hcond := List.of_mem_filter hr'
        revert hcond
        match hres : resolutionHeight r with
        | some hgt =>
            intro hcond
            exact ⟨hgt, rfl, of_decide_eq_true hcond⟩
        | Option.none => intro hcond; exact absurd hcond (by simp)

/-- Witness for C3 at source height 1080 and requested list
`["320p", "1080p"]`. -/
theorem determine_target_resolutions_no_upscale_witness :
    0 < 1080 ∧
      ∀ r ∈ determineTargetResolutions 1080 (some ["320p", "1080p"]),
        ∃ hgt, resolutionHeight r = some hgt ∧ hgt < 1080 :=
  ⟨by decide, determine_target_resolutions_no_upscale 1080 (by decide)
    (some ["320p", "1080p"])⟩

/-- C4: auto-selection and ordering.  With no requested list,
`determine_target_resolutions` returns exactly the ladder rungs strictly
below the source height, in descending height order; a 1080-pixel source
yields `["720p", "480p", "320p"]`. -/
theorem determine_target_resolutions_auto :
    (∀ sourceHeight : Nat,
      determineTargetResolutions sourceHeight Option.none =
        (ladderDesc.filter (fun p => p.2 < sourceHeight)).map (·.1)) ∧
    (∀ sourceHeight : Nat,
      List.Pairwise (fun a b => resolutionHeightD b < resolutionHeightD a)
        (determineTargetResolutions sourceHeight Option.none)) ∧
    determineTargetResolutions 1080 Option.none = ["720p", "480p", "320p"] := by
  refine ⟨fun _ => rfl, fun sourceHeight => ?_, by decide⟩
  have base : List.Pairwise
      (fun p q : String × Nat => resolutionHeightD q.1 < resolutionHeightD p.1)
      ladderDesc := by decide
  have filt := base.sublist (List.filter_sublist (p := fun p => p.2 < sourceHeight) _)
  exact List.pairwise_map.2 filt

/-- `parse_timestamp ∘ format_timestamp` is the identity on the carried
value (the HH:MM:SS decomposition recombines exactly). -/
theorem parseTimestamp_formatTimestamp (q : ℚ) :
    parseTimestamp (formatTimestamp q) = q := by
  simp only [parseTimestamp, formatTimestamp]
  have h1 : (q - 3600 * ⌊q / 3600⌋) / 60 = q / 60 - ((60 * ⌊q / 3600⌋ : ℤ) : ℚ) := by
    push_cast; ring
  rw [h1, Int.floor_sub_int]
  push_cast; ring

/-- C9: custom thumbnail timestamp clamp.  In `custom` mode with a supplied
timestamp and a known (non-zero) duration, a parsed timestamp at or past the
end is clamped to `max(0, video_duration - 1)` seconds, and a timestamp
before the end is used unchanged. -/
theorem determineThumbTimestamp_custom_clamp (ts : Timestamp) (d : ℚ)
    (hd : d ≠ 0) :
    (d ≤ parseTimestamp ts →
      determineThumbTimestamp .custom (some ts) (some d) =
          formatTimestamp (max 0 (d - 1)) ∧
        parseTimestamp (determineThumbTimestamp .custom (some ts) (some d)) =
          max 0 (d - 1)) ∧
    (parseTimestamp ts < d →
      determineThumbTimestamp .custom (some ts) (some d) = ts) := by
  constructor
  · intro hge
    have heq : determineThumbTimestamp .custom (some ts) (some d) =
        formatTimestamp (max 0 (d - 1)) := by
      simp [determineThumbTimestamp, hd, hge]
    exact ⟨heq, by rw [heq, parseTimestamp_formatTimestamp]⟩
  · intro hlt
    simp [determineThumbTimestamp, hd, not_le.2 hlt]

/-- Witness for C9 at timestamp "100" (seconds form) and duration 50:
clamped to 49 seconds. -/
theorem determineThumbTimestamp_custom_clamp_witness :
    (50 : ℚ) ≠ 0 ∧
      (((50 : ℚ) ≤ parseTimestamp (.secs 100) →
        determineThumbTimestamp .custom (some (.secs 100)) (some 50) =
            formatTimestamp (max 0 (50 - 1)) ∧
          parseTimestamp
              (determineThumbTimestamp .custom (some (.secs 100)) (some 50)) =
            max 0 (50 - 1)) ∧
      (parseTimestamp (.secs 100) < 50 →
        determineThumbTimestamp .custom (some (.secs 100)) (some 50) =
          .secs 100)) :=
  ⟨by norm_num, determineThumbTimestamp_custom_clamp (.secs 100) 50 (by norm_num)⟩

/-- C10: `ProcessingOptions` serialization round trip.  `from_dict ∘ to_dict`
is the identity on well-typed options, and an empty (or missing) dict yields
the all-defaults options: no target resolutions, thumbnail mode `none`, no
watermark, chapters disabled, quality preset `medium`. -/
theorem processing_options_round_trip :
    (∀ p : ProcessingOptions, ProcessingOptions.fromDict p.toDict = p) ∧
    ProcessingOptions.fromDict {} = ({} : ProcessingOptions) ∧
    ({} : ProcessingOptions).target_resolutions = [] ∧
    ({} : ProcessingOptions).thumbnail.mode = ThumbMode.none ∧
    ({} : ProcessingOptions).watermark = Option.none ∧
    ({} : ProcessingOptions).chapters.enabled = false ∧
    ({} : ProcessingOptions).quality_preset = QualityPreset.medium :=
  ⟨fun _ => rfl, rfl, rfl, rfl, rfl, rfl, rfl⟩

/-- A segment URI line is not a tag line: it starts with `s`, not `#`. -/
theorem isTagLine_segmentFilename (idx : Nat) :
    isTagLine (segmentFilename idx) = false := by
  simp only [isTagLine, segmentFilename]
  rw [String.data_append, String.data_append]
  rfl

/-- The `#EXTINF` line is a tag line. -/
theorem isTagLine_extinf (s : String) :
    isTagLine ("#EXTINF:" ++ s ++ ",") = true := by
  simp only [isTagLine]
  rw [String.data_append, String.data_append]
  rfl

/-- The segment URIs of the playlist body are the segment filenames for
indices `0 .. chunkCount - 1`, in increasing order. -/
theorem segmentUris_playlistBody (d : ℚ) (chunkCount : Nat) :
    segmentUris (playlistBody d chunkCount) =
      (List.range chunkCount).map segmentFilename := by
  induction chunkCount with
  | zero => rfl
  | succ n ih =>
      rw [playlistBody, List.range_succ, List.flatMap_append,
        ← playlistBody, List.map_append]
      rw [segmentUris, List.filter_append, ← segmentUris, ih]
      congr 1
      simp only [List.flatMap_cons, List.flatMap_nil, List.append_nil]
      have hdisc : isTagLine "#EXT-X-DISCONTINUITY" = true := rfl
      rcases Nat.eq_zero_or_pos n with rfl | hn
      · simp [segmentUris, List.filter_cons, isTagLine_extinf,
          isTagLine_segmentFilename]
      · simp [segmentUris, List.filter_cons, isTagLine_extinf,
          isTagLine_segmentFilename, hn, hdisc]

/-- C6: variant playlist completeness and order.  When all `N ≥ 1`
transcoded segments for a resolution exist in storage and the upload
succeeds, `generate_hls_playlist` (invoked as the workflow does, with the
default segment duration) returns `segment_count = N` and uploads a playlist
whose segment URIs are exactly `segments/seg_0000.ts` through
`segments/seg_{N-1}.ts`, in increasing chunk-index order. -/
theorem generate_hls_playlist_complete (videoId resolution : String)
    (segExists : String → Bool) (N : Nat) (hN : 1 ≤ N)
    (hex : ∀ i < N, segExists (outputSegmentPath videoId resolution i) = true) :
    ∃ r, generateHlsPlaylist segExists true videoId resolution N
        HLS_SEGMENT_DURATION = .ok r ∧
      r.segment_count = N ∧
      segmentUris r.uploaded_lines = (List.range N).map segmentFilename := by
  have hmiss : (List.range N).filter
      (fun idx => !(segExists (outputSegmentPath videoId resolution idx))) = [] := by
    rw [List.filter_eq_nil_iff]
    intro i hi
    simp [hex i (List.mem_range.1 hi)]
  refine ⟨{ video_id := videoId, resolution := resolution,
            playlist_key := variantPlaylistPath videoId resolution,
            segment_count := N, bandwidth := hlsBandwidth resolution,
            uploaded_lines := playlistLines HLS_SEGMENT_DURATION N }, ?_, rfl, ?_⟩
  · unfold generateHlsPlaylist
    rw [hmiss]
    rfl
  · show segmentUris (playlistLines HLS_SEGMENT_DURATION N) = _
    rw [playlistLines, segmentUris, List.filter_append, List.filter_append,
      ← segmentUris, ← segmentUris, ← segmentUris, segmentUris_playlistBody]
    have h1 : segmentUris (playlistHeader HLS_SEGMENT_DURATION) = [] := by decide
    have h2 : segmentUris ["#EXT-X-ENDLIST"] = [] := by decide
    rw [h1, h2, List.nil_append, List.append_nil]

/-- Witness for C6 at `N = 3` with every segment present. -/
theorem generate_hls_playlist_complete_witness :
    1 ≤ 3 ∧
      ∃ r, generateHlsPlaylist (fun _ => true) true "vid" "720p" 3
          HLS_SEGMENT_DURATION = .ok r ∧
        r.segment_count = 3 ∧
        segmentUris r.uploaded_lines = (List.range 3).map segmentFilename :=
  ⟨by decide, generate_hls_playlist_complete "vid" "720p" (fun _ => true) 3
    (by decide) (fun _ _ => rfl)⟩

/-- The merge loop preserves: non-emptiness, adjacent gaps of at least
`minDur` (accumulator is reversed, so `a - b` for consecutive `a, b`), and
an upper bound by `duration` when all appended times are bounded. -/
theorem mergeGo_inv (minDur duration : ℚ) :
    ∀ (ts : List ℚ) (rev : List ℚ), rev ≠ [] →
      List.Chain' (fun a b => minDur ≤ a - b) rev →
      (∀ x ∈ rev, x ≤ duration) → (∀ t ∈ ts, t ≤ duration) →
      mergeGo minDur rev ts ≠ [] ∧
        List.Chain' (fun a b => minDur ≤ a - b) (mergeGo minDur rev ts) ∧
        ∀ x ∈ mergeGo minDur rev ts, x ≤ duration := by
  intro ts
  induction ts with
  | nil => intro rev h1 h2 h3 _; exact ⟨h1, h2, h3⟩
  | cons t ts ih =>
      intro rev h1 h2 h3 h4
      rw [mergeGo]
      by_cases hcond : minDur ≤ t - rev.headD 0
      · rw [if_pos hcond]
        refine ih (t :: rev) (by simp) ?_ ?_ (fun x hx => h4 x (List.mem_cons_of_mem _ hx))
        · rw [List.chain'_cons']
          refine ⟨?_, h2⟩
          intro y hy
          match rev, hy with
          | r :: rest, hy =>
              simp only [List.head?_cons, Option.mem_def, Option.some.injEq] at hy
              subst hy
              simpa using hcond
        · intro x hx
          rcases List.mem_cons.1 hx with rfl | hx
          · exact h4 x (List.mem_cons_self _ _)
          · exact h3 x hx
      · rw [if_neg hcond]
        exact ih rev h1 h2 h3 (fun x hx => h4 x (List.mem_cons_of_mem _ hx))

/-- After the fixup, `merged_times` has adjacent gaps of at least `minDur`
(now in forward order), provided every scene timestamp is at most the
duration. -/
theorem mergedTimes_chain (minDur duration : ℚ) (ts : List ℚ)
    (hdur0 : 0 ≤ duration) (hts : ∀ t ∈ ts, t ≤ duration) :
    List.Chain' (fun a b => minDur ≤ b - a) (mergedTimes minDur duration ts) := by
  have hinit : ∀ x ∈ ([0] : List ℚ), x ≤ duration := by
    intro x hx; simp at hx; simpa [hx] using hdur0
  have hin : ∀ t ∈ ts ++ [duration], t ≤ duration := by
    intro t ht
    rcases List.mem_append.1 ht with ht | ht
    · exact hts t ht
    · simp at ht; simp [ht]
  obtain ⟨hne, hch, hle⟩ :=
    mergeGo_inv minDur duration (ts ++ [duration]) [0] (by simp)
      (List.chain'_singleton 0) hinit hin
  match hrev : mergeGo minDur [0] (ts ++ [duration]) with
  | [] => exact absurd hrev hne
  | last :: rest =>
      rw [hrev] at hch hle
      have hred : mergedTimes minDur duration ts =
          (if last = duration then last :: rest
           else if duration - last < minDur then duration :: rest
           else duration :: last :: rest).reverse := by
        rw [mergedTimes, hrev]
      rw [hred]
      by_cases h1 : last = duration
      · rw [if_pos h1, List.chain'_reverse]
        exact hch
      · rw [if_neg h1]
        by_cases h2 : duration - last < minDur
        · rw [if_pos h2, List.chain'_reverse]
          match rest, hch, hle with
          | [], _, _ => simp
          | r :: rest', hch, hle =>
              have hparts := List.chain'_cons.1 hch
              have hlr : minDur ≤ last - r := hparts.1
              have hld : last ≤ duration := hle last (by simp)
              rw [List.chain'_cons]
              refine ⟨?_, hparts.2⟩
              show minDur ≤ duration - r
              linarith
        · rw [if_neg h2, List.chain'_reverse, List.chain'_cons]
          refine ⟨?_, hch⟩
          show minDur ≤ duration - last
          linarith [not_lt.1 h2]

/-- Every chapter built from a list of times with adjacent gaps at least
`minDur` has duration at least `minDur`. -/
theorem chaptersFromTimes_duration_ge (dI dO : Bool) (minDur : ℚ)
    (times : List ℚ)
    (hch : List.Chain' (fun a b => minDur ≤ b - a) times) :
    ∀ c ∈ chaptersFromTimes dI dO times, minDur ≤ c.duration := by
  intro c hc
  rcases List.mem_map.1 hc with ⟨i, hi, rfl⟩
  have hi' : i < times.length - 1 := List.mem_range.1 hi
  have h := List.chain'_iff_get.1 hch i hi'
  have hlt1 : i < times.length := lt_of_lt_of_le hi' (Nat.sub_le _ _)
  have hlt2 : i + 1 < times.length := Nat.lt_of_lt_of_le
    (Nat.add_lt_add_right hi' 1) (by omega)
  show minDur ≤ times.getD (i + 1) 0 - times.getD i 0
  rw [List.getD_eq_getElem times 0 hlt1, List.getD_eq_getElem times 0 hlt2]
  simpa [List.get_eq_getElem] using h

/-- C7 as stated is false: a 10-second video with a 30-second minimum
chapter duration is below the `min_chapter_duration * 2` cutoff, so
`detect_scenes` returns a success result with a single full-video chapter of
duration 10, which violates the 30-second floor. -/
theorem detect_scenes_min_duration_floor_counterexample :
    (detectScenes "vid" (3/10) 30 true true 10 []).success = true ∧
      ∃ c ∈ (detectScenes "vid" (3/10) 30 true true 10 []).chapters,
        c.duration < 30 := by
  have h : detectScenes "vid" (3/10) 30 true true 10 [] =
      { video_id := "vid", total_duration := 10, scene_count := 1,
        chapters := [fullVideoChapter 10], threshold_used := 3/10,
        success := true } := by
    unfold detectScenes
    rw [if_pos (by norm_num)]
  rw [h]
  exact ⟨rfl, fullVideoChapter 10, by simp, by norm_num [fullVideoChapter]⟩

/-- C7 (amended): for a video at least twice the minimum chapter duration
long (so the short-video single-chapter path is not taken), with a
non-negative minimum and scene timestamps within the video, every chapter
emitted by `detect_scenes` has duration at least `min_chapter_duration`. -/
theorem detect_scenes_min_duration_floor (videoId : String)
    (threshold minDur : ℚ) (dI dO : Bool) (duration : ℚ) (ts : List ℚ)
    (hmin : 0 ≤ minDur) (hdur : minDur * 2 ≤ duration)
    (hts : ∀ t ∈ ts, t ≤ duration) :
    ∀ c ∈ (detectScenes videoId threshold minDur dI dO duration ts).chapters,
      minDur ≤ c.duration := by
  have hnotshort : ¬ duration < minDur * 2 := not_lt.2 hdur
  have hdur0 : (0 : ℚ) ≤ duration := by linarith
  unfold detectScenes
  rw [if_neg hnotshort]
  by_cases hcs : (chaptersFromTimes dI dO (mergedTimes minDur duration ts)).isEmpty
  · simp only [hcs, if_true]
    intro c hc
    simp only [List.mem_singleton] at hc
    subst hc
    show minDur ≤ duration
    linarith
  · simp only [hcs, if_false]
    exact chaptersFromTimes_duration_ge dI dO minDur _
      (mergedTimes_chain minDur duration ts hdur0 hts)

/-- Witness for the amended C7: minimum 30, duration 100, scene timestamps
40, 50, 95. -/
theorem detect_scenes_min_duration_floor_witness :
    (0 : ℚ) ≤ 30 ∧ (30 : ℚ) * 2 ≤ 100 ∧
      (∀ t ∈ ([40, 50, 95] : List ℚ), t ≤ 100) ∧
      ∀ c ∈ (detectScenes "vid" (3/10) 30 true true 100 [40, 50, 95]).chapters,
        (30 : ℚ) ≤ c.duration :=
  ⟨by norm_num, by norm_num, by decide,
    detect_scenes_min_duration_floor "vid" (3/10) 30 true true 100 [40, 50, 95]
      (by norm_num) (by norm_num) (by decide)⟩

/-! ### Workflow support lemmas -/

/-- With the download succeeding (or skipped) and metadata available, the
run reduces to stage 3 followed by `runFromStage4`. -/
theorem runVideoWorkflow_stage4 (vid : String) (yurl : Option String)
    (optd : Option OptionsDict) (env : Env)
    (hdl : ∀ u, yurl = some u → env.downloadOutcome = .ok ())
    (md : Metadata) (hmd : env.metadataOutcome = .ok md) :
    runVideoWorkflow vid yurl optd env =
      ((runFromStage4 vid (ProcessingOptions.fromDict (optd.getD {})) md
          (thumbBranch (ProcessingOptions.fromDict (optd.getD {})) env).1
          (sceneBranch (ProcessingOptions.fromDict (optd.getD {})) env).1
          ((thumbBranch (ProcessingOptions.fromDict (optd.getD {})) env).2.1 ++
            (sceneBranch (ProcessingOptions.fromDict (optd.getD {})) env).2.1)
          env).1,
       dlTrace yurl ++ ["metadata"] ++
         (thumbBranch (ProcessingOptions.fromDict (optd.getD {})) env).2.2 ++
         (sceneBranch (ProcessingOptions.fromDict (optd.getD {})) env).2.2 ++
         (runFromStage4 vid (ProcessingOptions.fromDict (optd.getD {})) md
           (thumbBranch (ProcessingOptions.fromDict (optd.getD {})) env).1
           (sceneBranch (ProcessingOptions.fromDict (optd.getD {})) env).1
           ((thumbBranch (ProcessingOptions.fromDict (optd.getD {})) env).2.1 ++
             (sceneBranch (ProcessingOptions.fromDict (optd.getD {})) env).2.1)
           env).2) := by
  match yurl with
  | Option.none =>
      unfold runVideoWorkflow
      rw [hmd]
  | some u =>
      unfold runVideoWorkflow
      rw [hdl u rfl, hmd]

/-- `runFromStage4` with an empty target list: the early success return. -/
theorem runFromStage4_emptyTargets (vid : String) (opts : ProcessingOptions)
    (md : Metadata) (t : Option ThumbRes) (s : Option SceneRes)
    (w : List WarningEntry) (env : Env)
    (h : determineTargetResolutions md.height (some opts.target_resolutions) = []) :
    runFromStage4 vid opts md t s w env =
      ({ success := true, video_id := vid, metadata := some md,
         thumbnail := t.map .raw, chapters := s.map .raw, hls := Option.none,
         message := some "Source video is already at minimum resolution, no transcoding needed",
         warnings := warningsField w },
       ["determine_resolutions"]) := by
  unfold runFromStage4
  rw [h]
  rfl

/-- `runFromStage4` when splitting fails (with a non-empty target list). -/
theorem runFromStage4_splitError (vid : String) (opts : ProcessingOptions)
    (md : Metadata) (t : Option ThumbRes) (s : Option SceneRes)
    (w : List WarningEntry) (env : Env) (e : String)
    (h : determineTargetResolutions md.height (some opts.target_resolutions) ≠ [])
    (hsp : env.splitOutcome = .error e) :
    runFromStage4 vid opts md t s w env =
      ({ success := false, video_id := vid, stage := some "split",
         error := some e, thumbnail := t.map .raw,
         warnings := warningsField w },
       ["determine_resolutions", "split"]) := by
  simp only [runFromStage4, List.isEmpty_eq_false.2 h, hsp,
    Bool.false_eq_true, if_false]

/-- `runFromStage4` when some transcode task failed and no resolution is
complete: the fatal transcode return. -/
theorem runFromStage4_transcodeError (vid : String) (opts : ProcessingOptions)
    (md : Metadata) (t : Option ThumbRes) (s : Option SceneRes)
    (w : List WarningEntry) (env : Env) (sp : SplitResult)
    (h : determineTargetResolutions md.height (some opts.target_resolutions) ≠ [])
    (hsp : env.splitOutcome = .ok sp)
    (hterr : transcodeErrorsOf env (transcodeTasks
      (determineTargetResolutions md.height (some opts.target_resolutions))
      sp.chunks) ≠ [])
    (hcomp : completeResolutions env
      (determineTargetResolutions md.height (some opts.target_resolutions))
      sp.chunks sp.chunk_count = []) :
    runFromStage4 vid opts md t s w env =
      ({ success := false, video_id := vid, stage := some "transcode",
         error := some ("No resolution fully transcoded. Errors: " ++
           toString (transcodeErrorsOf env (transcodeTasks
             (determineTargetResolutions md.height (some opts.target_resolutions))
             sp.chunks)).length),
         errors := some (transcodeErrorsOf env (transcodeTasks
           (determineTargetResolutions md.height (some opts.target_resolutions))
           sp.chunks)),
         thumbnail := t.map .raw, warnings := warningsField w },
       ["determine_resolutions", "split", "transcode"]) := by
  simp only [runFromStage4, List.isEmpty_eq_false.2 h, hsp,
    List.isEmpty_eq_false.2 hterr, List.isEmpty_iff.2 hcomp, if_false, if_true,
    Bool.false_eq_true]

/-- `runFromStage4` when some transcode task failed but some resolutions are
complete: the run proceeds to the playlist stage with exactly the complete
resolutions. -/
theorem runFromStage4_someComplete (vid : String) (opts : ProcessingOptions)
    (md : Metadata) (t : Option ThumbRes) (s : Option SceneRes)
    (w : List WarningEntry) (env : Env) (sp : SplitResult)
    (h : determineTargetResolutions md.height (some opts.target_resolutions) ≠ [])
    (hsp : env.splitOutcome = .ok sp)
    (hterr : transcodeErrorsOf env (transcodeTasks
      (determineTargetResolutions md.height (some opts.target_resolutions))
      sp.chunks) ≠ [])
    (hcomp : completeResolutions env
      (determineTargetResolutions md.height (some opts.target_resolutions))
      sp.chunks sp.chunk_count ≠ []) :
    runFromStage4 vid opts md t s w env =
      finalizeStages vid md t s w env sp.chunk_count
        (transcodeErrorsOf env (transcodeTasks
          (determineTargetResolutions md.height (some opts.target_resolutions))
          sp.chunks))
        (completeResolutions env
          (determineTargetResolutions md.height (some opts.target_resolutions))
          sp.chunks sp.chunk_count) := by
  simp only [runFromStage4, List.isEmpty_eq_false.2 h, hsp,
    List.isEmpty_eq_false.2 hterr, List.isEmpty_eq_false.2 hcomp, if_false,
    Bool.false_eq_true]

/-- Playlist fan-out when every surviving resolution's playlist generation
succeeds and returns its own resolution: no playlist errors, and the
variants carry exactly the surviving resolutions in order. -/
theorem playlistPhase_ok (env : Env) (l : List String)
    (h : ∀ r ∈ l, ∃ v, env.playlistOutcome r = .ok v ∧ v.resolution = r) :
    (playlistPhase env l).2 = [] ∧
      ((playlistPhase env l).1).map (·.resolution) = l := by
  induction l with
  | nil => exact ⟨rfl, rfl⟩
  | cons r l ih =>
      obtain ⟨v, hv, hres⟩ := h r (List.mem_cons_self _ _)
      obtain ⟨ih1, ih2⟩ := ih (fun x hx => h x (List.mem_cons_of_mem _ hx))
      constructor
      · simp only [playlistPhase, List.filterMap_cons, hv]
        simpa [playlistPhase] using ih1
      · simp only [playlistPhase, List.filterMap_cons, hv, Except.toOption,
          List.map_cons, hres]
        simpa [playlistPhase, Except.toOption] using ih2

/-- `runFromStage4` when no transcode task failed: all target resolutions
proceed to the playlist stage. -/
theorem runFromStage4_noErrors (vid : String) (opts : ProcessingOptions)
    (md : Metadata) (t : Option ThumbRes) (s : Option SceneRes)
    (w : List WarningEntry) (env : Env) (sp : SplitResult)
    (h : determineTargetResolutions md.height (some opts.target_resolutions) ≠ [])
    (hsp : env.splitOutcome = .ok sp)
    (hterr : transcodeErrorsOf env (transcodeTasks
      (determineTargetResolutions md.height (some opts.target_resolutions))
      sp.chunks) = []) :
    runFromStage4 vid opts md t s w env =
      finalizeStages vid md t s w env sp.chunk_count []
        (determineTargetResolutions md.height (some opts.target_resolutions)) := by
  simp only [runFromStage4, List.isEmpty_eq_false.2 h, hsp, hterr,
    List.isEmpty_nil, if_true, Bool.false_eq_true, if_false]

/-- The final success flag is exactly "some variant playlist succeeded". -/
theorem finalizeStages_success (vid : String) (md : Metadata)
    (t : Option ThumbRes) (s : Option SceneRes) (w : List WarningEntry)
    (env : Env) (cc : Nat) (terrs : List ErrorEntry) (tl : List String) :
    (finalizeStages vid md t s w env cc terrs tl).1.success =
      !(playlistPhase env tl).1.isEmpty := by
  simp only [finalizeStages]

/-- The finalize trace always records the split, transcode and playlist
stages. -/
theorem finalizeStages_trace (vid : String) (md : Metadata)
    (t : Option ThumbRes) (s : Option SceneRes) (w : List WarningEntry)
    (env : Env) (cc : Nat) (terrs : List ErrorEntry) (tl : List String) :
    "split" ∈ (finalizeStages vid md t s w env cc terrs tl).2 ∧
      "transcode" ∈ (finalizeStages vid md t s w env cc terrs tl).2 := by
  simp [finalizeStages]

/-- The final warnings extend the incoming warnings (by at most a
`chapter_files` entry). -/
theorem finalizeStages_warnings (vid : String) (md : Metadata)
    (t : Option ThumbRes) (s : Option SceneRes) (w : List WarningEntry)
    (env : Env) (cc : Nat) (terrs : List ErrorEntry) (tl : List String) :
    ∃ extra, (finalizeStages vid md t s w env cc terrs tl).1.warnings =
      warningsField (w ++ extra) := by
  simp only [finalizeStages]
  exact ⟨_, rfl⟩

/-- Finalize under fully successful playlist and master generation: success,
variants carrying exactly the surviving resolutions, and the transcode
errors as the whole errors list. -/
theorem finalizeStages_allOk (vid : String) (md : Metadata)
    (t : Option ThumbRes) (s : Option SceneRes) (w : List WarningEntry)
    (env : Env) (cc : Nat) (terrs : List ErrorEntry) (tl : List String)
    (hpl : ∀ r ∈ tl, ∃ v, env.playlistOutcome r = .ok v ∧ v.resolution = r)
    (hne : tl ≠ []) (m : MasterOk) (hm : env.masterOutcome = .ok m) :
    (finalizeStages vid md t s w env cc terrs tl).1.success = true ∧
      (∃ hi, (finalizeStages vid md t s w env cc terrs tl).1.hls = some hi ∧
        hi.variants.map (·.resolution) = tl) ∧
      (finalizeStages vid md t s w env cc terrs tl).1.errors =
        (if terrs.isEmpty then Option.none else some terrs) := by
  obtain ⟨hp2, hp1⟩ := playlistPhase_ok env tl hpl
  have hvne : (playlistPhase env tl).1 ≠ [] := by
    intro h0
    rw [h0] at hp1
    exact hne hp1.symm
  have hvempty : (playlistPhase env tl).1.isEmpty = false :=
    List.isEmpty_eq_false.2 hvne
  refine ⟨?_,
    ⟨{ master_playlist := env.masterOutcome.toOption.map (·.master_playlist_key),
       variants := (playlistPhase env tl).1.map (fun v =>
         { resolution := v.resolution, playlist := v.playlist_key,
           bandwidth := some v.bandwidth,
           segment_count := some v.segment_count }) }, ?_, ?_⟩, ?_⟩
  · simp only [finalizeStages, hvempty, Bool.not_false]
  · simp only [finalizeStages, hvempty, Bool.false_eq_true, if_false]
  · simp only [List.map_map]
    exact hp1
  · simp only [finalizeStages, hvempty, Bool.false_eq_true, if_false, hm,
      hp2, List.nil_append, List.append_nil]

/-- The download trace is empty or the singleton `["download"]`. -/
theorem dlTrace_cases (yurl : Option String) :
    dlTrace yurl = [] ∨ dlTrace yurl = ["download"] := by
  cases yurl <;> simp [dlTrace]

/-- The thumbnail branch trace is empty or the singleton `["thumbnail"]`. -/
theorem thumbBranch_trace (opts : ProcessingOptions) (env : Env) :
    (thumbBranch opts env).2.2 = [] ∨ (thumbBranch opts env).2.2 = ["thumbnail"] := by
  unfold thumbBranch
  by_cases h : opts.thumbnail.mode != ThumbMode.none
  · rw [if_pos h]
    cases env.thumbnailOutcome <;> simp
  · rw [if_neg h]
    simp

/-- The scene branch trace is empty or the singleton `["scene_detection"]`. -/
theorem sceneBranch_trace (opts : ProcessingOptions) (env : Env) :
    (sceneBranch opts env).2.2 = [] ∨
      (sceneBranch opts env).2.2 = ["scene_detection"] := by
  unfold sceneBranch
  by_cases h : opts.chapters.enabled
  · rw [if_pos h]
    cases env.sceneOutcome <;> simp
  · rw [if_neg h]
    simp

/-- A non-empty transcode error list forces a non-empty target list. -/
theorem targets_ne_of_terrs (env : Env) (tg : List String) (chunks : List Chunk)
    (hterr : transcodeErrorsOf env (transcodeTasks tg chunks) ≠ []) :
    tg ≠ [] := by
  intro h0
  subst h0
  exact hterr rfl

/-- Every failed (resolution, chunk) work unit yields a transcode error
entry naming its resolution and chunk index. -/
theorem transcodeErrorsOf_mem (env : Env) (targets : List String)
    (chunks : List Chunk) (r : String) (c : Chunk) (hr : r ∈ targets)
    (hc : c ∈ chunks) (e : String)
    (he : env.transcodeOutcome r c.index = .error e) :
    ∃ err ∈ transcodeErrorsOf env (transcodeTasks targets chunks),
      err.resolution = r ∧ err.chunk_index = some c.index := by
  refine ⟨{ resolution := r, chunk_index := some c.index, message := e },
    ?_, rfl, rfl⟩
  rw [transcodeErrorsOf, List.mem_filterMap]
  refine ⟨(r, c.index), ?_, by rw [he]⟩
  rw [transcodeTasks, List.mem_flatMap]
  exact ⟨r, hr, List.mem_map.2 ⟨c, hc, rfl⟩⟩

/-- Warnings collected before stage 4 survive into the result of every
return the run can take from stage 4 on. -/
theorem runFromStage4_warnings_mem (vid : String) (opts : ProcessingOptions)
    (md : Metadata) (t : Option ThumbRes) (s : Option SceneRes)
    (w : List WarningEntry) (env : Env) (x : WarningEntry) (hx : x ∈ w) :
    ∃ ws, (runFromStage4 vid opts md t s w env).1.warnings = some ws ∧
      x ∈ ws := by
  have hwne : w ≠ [] := by
    intro h0
    subst h0
    exact absurd hx (List.not_mem_nil x)
  have hwf : warningsField w = some w := by
    simp [warningsField, hwne]
  by_cases h : determineTargetResolutions md.height (some opts.target_resolutions) = []
  · rw [runFromStage4_emptyTargets vid opts md t s w env h]
    exact ⟨w, hwf, hx⟩
  · match hsp : env.splitOutcome with
    | .error e =>
        rw [runFromStage4_splitError vid opts md t s w env e h hsp]
        exact ⟨w, hwf, hx⟩
    | .ok sp =>
        have hfin : ∀ terrs tl, ∃ ws,
            (finalizeStages vid md t s w env sp.chunk_count terrs tl).1.warnings =
              some ws ∧ x ∈ ws := by
          intro terrs tl
          obtain ⟨extra, hext⟩ :=
            finalizeStages_warnings vid md t s w env sp.chunk_count terrs tl
          refine ⟨w ++ extra, ?_, List.mem_append_left _ hx⟩
          rw [hext]
          simp [warningsField, hwne]
        by_cases hterr : transcodeErrorsOf env (transcodeTasks
            (determineTargetResolutions md.height (some opts.target_resolutions))
            sp.chunks) = []
        · rw [runFromStage4_noErrors vid opts md t s w env sp h hsp hterr]
          exact hfin [] _
        · by_cases hcomp : completeResolutions env
              (determineTargetResolutions md.height (some opts.target_resolutions))
              sp.chunks sp.chunk_count = []
          · rw [runFromStage4_transcodeError vid opts md t s w env sp h hsp
              hterr hcomp]
            exact ⟨w, hwf, hx⟩
          · rw [runFromStage4_someComplete vid opts md t s w env sp h hsp hterr hcomp]
            exact hfin _ _

/-- With a non-empty target list, the run always attempts the split stage,
and when splitting succeeded it always attempts the transcode stage. -/
theorem runFromStage4_reaches (vid : String) (opts : ProcessingOptions)
    (md : Metadata) (t : Option ThumbRes) (s : Option SceneRes)
    (w : List WarningEntry) (env : Env)
    (h : determineTargetResolutions md.height (some opts.target_resolutions) ≠ []) :
    "split" ∈ (runFromStage4 vid opts md t s w env).2 ∧
      ((∃ sp, env.splitOutcome = .ok sp) →
        "transcode" ∈ (runFromStage4 vid opts md t s w env).2) := by
  match hsp : env.splitOutcome with
  | .error e =>
      rw [runFromStage4_splitError vid opts md t s w env e h hsp]
      refine ⟨by simp, ?_⟩
      rintro ⟨sp, hsp'⟩
      exact absurd hsp' (by simp)

  | .ok sp =>
      have hfin : ∀ terrs tl,
          "split" ∈ (finalizeStages vid md t s w env sp.chunk_count terrs tl).2 ∧
          "transcode" ∈ (finalizeStages vid md t s w env sp.chunk_count terrs tl).2 :=
        fun terrs tl => finalizeStages_trace vid md t s w env sp.chunk_count terrs tl
      by_cases hterr : transcodeErrorsOf env (transcodeTasks
          (determineTargetResolutions md.height (some opts.target_resolutions))
          sp.chunks) = []
      · rw [runFromStage4_noErrors vid opts md t s w env sp h hsp hterr]
        exact ⟨(hfin [] _).1, fun _ => (hfin [] _).2⟩
      · by_cases hcomp : completeResolutions env
            (determineTargetResolutions md.height (some opts.target_resolutions))
            sp.chunks sp.chunk_count = []
        · rw [runFromStage4_transcodeError vid opts md t s w env sp h hsp
            hterr hcomp]
          exact ⟨by simp, fun _ => by simp⟩
        · rw [runFromStage4_someComplete vid opts md t s w env sp h hsp hterr hcomp]
          exact ⟨(hfin _ _).1, fun _ => (hfin _ _).2⟩

/-- The final success flag does not depend on the optional-branch results,
the collected warnings, or any environment field other than the split,
transcode, playlist and master outcomes. -/
theorem runFromStage4_success_eq (vid : String) (opts : ProcessingOptions)
    (md : Metadata) (t t' : Option ThumbRes) (s s' : Option SceneRes)
    (w w' : List WarningEntry) (env env' : Env)
    (h1 : env.splitOutcome = env'.splitOutcome)
    (h2 : env.transcodeOutcome = env'.transcodeOutcome)
    (h3 : env.playlistOutcome = env'.playlistOutcome) :
    (runFromStage4 vid opts md t s w env).1.success =
      (runFromStage4 vid opts md t' s' w' env').1.success := by
  by_cases h : determineTargetResolutions md.height (some opts.target_resolutions) = []
  · rw [runFromStage4_emptyTargets vid opts md t s w env h,
      runFromStage4_emptyTargets vid opts md t' s' w' env' h]
  · have hplph : ∀ tl, playlistPhase env tl = playlistPhase env' tl := by
      intro tl
      unfold playlistPhase
      rw [h3]
    match hsp : env.splitOutcome with
    | .error e =>
        have hsp' : env'.splitOutcome = .error e := by rw [← h1, hsp]
        rw [runFromStage4_splitError vid opts md t s w env e h hsp,
          runFromStage4_splitError vid opts md t' s' w' env' e h hsp']
    | .ok sp =>
        have hsp' : env'.splitOutcome = .ok sp := by rw [← h1, hsp]
        have hterr_eq : transcodeErrorsOf env (transcodeTasks
            (determineTargetResolutions md.height (some opts.target_resolutions))
            sp.chunks) = transcodeErrorsOf env' (transcodeTasks
            (determineTargetResolutions md.height (some opts.target_resolutions))
            sp.chunks) := by
          unfold transcodeErrorsOf
          rw [h2]
        have hcomp_eq : completeResolutions env
            (determineTargetResolutions md.height (some opts.target_resolutions))
            sp.chunks sp.chunk_count = completeResolutions env'
            (determineTargetResolutions md.height (some opts.target_resolutions))
            sp.chunks sp.chunk_count := by
          unfold completeResolutions successCount
          rw [h2]
        by_cases hterr : transcodeErrorsOf env (transcodeTasks
            (determineTargetResolutions md.height (some opts.target_resolutions))
            sp.chunks) = []
        · rw [runFromStage4_noErrors vid opts md t s w env sp h hsp hterr,
            runFromStage4_noErrors vid opts md t' s' w' env' sp h hsp'
              (hterr_eq ▸ hterr),
            finalizeStages_success, finalizeStages_success, hplph]
        · by_cases hcomp : completeResolutions env
              (determineTargetResolutions md.height (some opts.target_resolutions))
              sp.chunks sp.chunk_count = []
          · rw [runFromStage4_transcodeError vid opts md t s w env sp h hsp
              hterr hcomp,
              runFromStage4_transcodeError vid opts md t' s' w' env' sp h hsp'
                (hterr_eq ▸ hterr) (hcomp_eq ▸ hcomp)]
          · rw [runFromStage4_someComplete vid opts md t s w env sp h hsp hterr hcomp,
              runFromStage4_someComplete vid opts md t' s' w' env' sp h hsp'
                (hterr_eq ▸ hterr) (hcomp_eq ▸ hcomp),
              finalizeStages_success, finalizeStages_success, hplph, hcomp_eq]

/-- Every variant produced by the playlist fan-out comes from a successful
playlist outcome of one of the surviving resolutions. -/
theorem playlistPhase_sub (env : Env) (tl : List String) :
    ∀ v ∈ (playlistPhase env tl).1, ∃ r ∈ tl, env.playlistOutcome r = .ok v := by
  intro v hv
  rw [playlistPhase] at hv
  rcases List.mem_filterMap.1 hv with ⟨r, hr, htop⟩
  refine ⟨r, hr, ?_⟩
  match ho : env.playlistOutcome r with
  | .error e =>
      rw [ho] at htop
      exact absurd htop (by simp [Except.toOption])
  | .ok v' =>
      rw [ho] at htop
      simp only [Except.toOption, Option.some.injEq] at htop
      rw [htop]

/-- If at least one surviving resolution's playlist generation succeeded,
the variants list is non-empty. -/
theorem playlistPhase_ne_nil (env : Env) (tl : List String)
    (h : ∃ r ∈ tl, ∃ v, env.playlistOutcome r = .ok v) :
    (playlistPhase env tl).1 ≠ [] := by
  obtain ⟨r, hr, v, hv⟩ := h
  intro h0
  have hmem : v ∈ (playlistPhase env tl).1 := by
    rw [playlistPhase]
    exact List.mem_filterMap.2 ⟨r, hr, by rw [hv]; rfl⟩
  rw [h0] at hmem
  exact absurd hmem (List.not_mem_nil v)

/-- The `errors` field is present whenever the transcode errors are. -/
theorem errorsField_some {terrs rest : List ErrorEntry} (h : terrs ≠ []) :
    (if (terrs ++ rest).isEmpty = true then Option.none
     else some (terrs ++ rest)) = some (terrs ++ rest) := by
  rw [if_neg]
  rw [List.isEmpty_iff]
  intro hc
  exact h (List.append_eq_nil.1 hc).1

/-- Finalize when at least one surviving playlist succeeded, playlist
results carry their requested resolution (as `generate_hls_playlist` does),
and some transcode errors were collected: the run succeeds, every variant
belongs to a surviving resolution, and the errors field lists (at least) all
transcode errors. -/
theorem finalizeStages_partialOk (vid : String) (md : Metadata)
    (t : Option ThumbRes) (s : Option SceneRes) (w : List WarningEntry)
    (env : Env) (cc : Nat) (terrs : List ErrorEntry) (tl : List String)
    (hone : ∃ r ∈ tl, ∃ v, env.playlistOutcome r = .ok v)
    (hres : ∀ r v, env.playlistOutcome r = .ok v → v.resolution = r)
    (hterrne : terrs ≠ []) :
    (finalizeStages vid md t s w env cc terrs tl).1.success = true ∧
      (∃ hi, (finalizeStages vid md t s w env cc terrs tl).1.hls = some hi ∧
        ∀ entry ∈ hi.variants, entry.resolution ∈ tl) ∧
      (∃ es, (finalizeStages vid md t s w env cc terrs tl).1.errors = some es ∧
        ∀ x ∈ terrs, x ∈ es) := by
  have hvne := playlistPhase_ne_nil env tl hone
  have hvempty : (playlistPhase env tl).1.isEmpty = false :=
    List.isEmpty_eq_false.2 hvne
  refine ⟨?_,
    ⟨{ master_playlist := env.masterOutcome.toOption.map (·.master_playlist_key),
       variants := (playlistPhase env tl).1.map (fun v =>
         { resolution := v.resolution, playlist := v.playlist_key,
           bandwidth := some v.bandwidth,
           segment_count := some v.segment_count }) }, ?_, ?_⟩, ?_⟩
  · simp only [finalizeStages, hvempty, Bool.not_false]
  · simp only [finalizeStages, hvempty, Bool.false_eq_true, if_false]
  · intro entry hentry
    rcases List.mem_map.1 hentry with ⟨v, hv, rfl⟩
    obtain ⟨r, hr, hok⟩ := playlistPhase_sub env tl v hv
    have : v.resolution = r := hres r v hok
    simpa [this] using hr
  · simp only [finalizeStages]
    exact ⟨_, errorsField_some hterrne, fun x hx => List.mem_append_left _ hx⟩

/-- An enabled, failed thumbnail branch contributes a warning naming the
thumbnail component. -/
theorem thumbBranch_warning (opts : ProcessingOptions) (env : Env)
    (hen : opts.thumbnail.mode ≠ ThumbMode.none)
    (hf : thumbFailed env.thumbnailOutcome) :
    ∃ wentry ∈ (thumbBranch opts env).2.1, wentry.component = "thumbnail" := by
  have hbne : (opts.thumbnail.mode != ThumbMode.none) = true := bne_iff_ne.2 hen
  unfold thumbBranch
  rw [if_pos hbne]
  match ho : env.thumbnailOutcome with
  | .error e =>
      exact ⟨{ component := "thumbnail", message := e },
        List.mem_singleton.2 rfl, rfl⟩
  | .ok r =>
      have hrs : r.success = false := by
        rcases hf with ⟨e, he⟩ | ⟨r', hr', hs⟩
        · rw [ho] at he
          exact absurd he (by simp)
        · rw [ho] at hr'
          have hr2 := Except.ok.inj hr'
          rw [← hr2] at hs
          exact hs
      exact ⟨{ component := "thumbnail", message := r.error.getD "Unknown error" },
        by simp [hrs], rfl⟩

/-- An enabled, failed scene-detection branch contributes a warning naming
the scene-detection component. -/
theorem sceneBranch_warning (opts : ProcessingOptions) (env : Env)
    (hen : opts.chapters.enabled = true)
    (hf : sceneFailed env.sceneOutcome) :
    ∃ wentry ∈ (sceneBranch opts env).2.1,
      wentry.component = "scene_detection" := by
  unfold sceneBranch
  rw [if_pos hen]
  match ho : env.sceneOutcome with
  | .error e =>
      exact ⟨{ component := "scene_detection", message := e },
        List.mem_singleton.2 rfl, rfl⟩
  | .ok r =>
      have hrs : r.success = false := by
        rcases hf with ⟨e, he⟩ | ⟨r', hr', hs⟩
        · rw [ho] at he
          exact absurd he (by simp)
        · rw [ho] at hr'
          have hr2 := Except.ok.inj hr'
          rw [← hr2] at hs
          exact hs
      exact ⟨{ component := "scene_detection",
               message := r.error.getD "Unknown error" },
        by simp [hrs], rfl⟩

/-- C5: an empty target list is success, not error.  When
`determine_target_resolutions` returns `[]`, the workflow returns
`success=True` with `hls=None` and the minimum-resolution message, and never
attempts the split or transcode stages. -/
theorem run_empty_targets_is_success (vid : String) (yurl : Option String)
    (optd : Option OptionsDict) (env : Env)
    (hdl : ∀ u, yurl = some u → env.downloadOutcome = .ok ())
    (md : Metadata) (hmd : env.metadataOutcome = .ok md)
    (hempty : runTargets optd md = []) :
    (runVideoWorkflow vid yurl optd env).1.success = true ∧
      (runVideoWorkflow vid yurl optd env).1.hls = Option.none ∧
      (runVideoWorkflow vid yurl optd env).1.message =
        some "Source video is already at minimum resolution, no transcoding needed" ∧
      "split" ∉ (runVideoWorkflow vid yurl optd env).2 ∧
      "transcode" ∉ (runVideoWorkflow vid yurl optd env).2 := by
  unfold runTargets at hempty
  rw [runVideoWorkflow_stage4 vid yurl optd env hdl md hmd,
    runFromStage4_emptyTargets _ _ _ _ _ _ _ hempty]
  refine ⟨rfl, rfl, rfl, ?_, ?_⟩ <;>
  · rcases dlTrace_cases yurl with h1 | h1 <;>
      rcases thumbBranch_trace (ProcessingOptions.fromDict (optd.getD {})) env
        with h2 | h2 <;>
      rcases sceneBranch_trace (ProcessingOptions.fromDict (optd.getD {})) env
        with h3 | h3 <;>
    simp [h1, h2, h3]

/-- Witness for C5: a 480×270 source with requested list `["1080p"]`. -/
theorem run_empty_targets_is_success_witness :
    (∀ u, (Option.none : Option String) = some u →
      envLowRes.downloadOutcome = .ok ()) ∧
    envLowRes.metadataOutcome =
      .ok { width := 480, height := 270, duration := 60 } ∧
    runTargets optd1080 { width := 480, height := 270, duration := 60 } = [] ∧
    ((runVideoWorkflow "vid" Option.none optd1080 envLowRes).1.success = true ∧
      (runVideoWorkflow "vid" Option.none optd1080 envLowRes).1.hls = Option.none ∧
      (runVideoWorkflow "vid" Option.none optd1080 envLowRes).1.message =
        some "Source video is already at minimum resolution, no transcoding needed" ∧
      "split" ∉ (runVideoWorkflow "vid" Option.none optd1080 envLowRes).2 ∧
      "transcode" ∉ (runVideoWorkflow "vid" Option.none optd1080 envLowRes).2) :=
  ⟨(fun u h => nomatch h), rfl,
    by simp [runTargets, optd1080, ProcessingOptions.fromDict,
      OptionsDict.isEmpty, determineTargetResolutions, resolutionHeight,
      RESOLUTION_HEIGHTS],
    run_empty_targets_is_success "vid" Option.none optd1080 envLowRes
      (fun u h => nomatch h) _ rfl
      (by simp [runTargets, optd1080, ProcessingOptions.fromDict,
        OptionsDict.isEmpty, determineTargetResolutions, resolutionHeight,
        RESOLUTION_HEIGHTS])⟩

/-- C2: total transcode failure.  When at least one transcode work unit
failed and no target resolution has a successful count equal to the chunk
count, the workflow returns `success=False`, `stage="transcode"`, and an
errors list containing the transcode errors — one entry naming the
resolution and chunk index of every failed work unit. -/
theorem run_total_transcode_failure (vid : String) (yurl : Option String)
    (optd : Option OptionsDict) (env : Env)
    (hdl : ∀ u, yurl = some u → env.downloadOutcome = .ok ())
    (md : Metadata) (hmd : env.metadataOutcome = .ok md)
    (sp : SplitResult) (hsp : env.splitOutcome = .ok sp)
    (hterr : transcodeErrorsOf env
      (transcodeTasks (runTargets optd md) sp.chunks) ≠ [])
    (hcomp : completeResolutions env (runTargets optd md) sp.chunks
      sp.chunk_count = []) :
    (runVideoWorkflow vid yurl optd env).1.success = false ∧
      (runVideoWorkflow vid yurl optd env).1.stage = some "transcode" ∧
      (runVideoWorkflow vid yurl optd env).1.errors =
        some (transcodeErrorsOf env
          (transcodeTasks (runTargets optd md) sp.chunks)) ∧
      (∀ r ∈ runTargets optd md, ∀ c ∈ sp.chunks, ∀ e,
        env.transcodeOutcome r c.index = .error e →
        ∃ err ∈ transcodeErrorsOf env
            (transcodeTasks (runTargets optd md) sp.chunks),
          err.resolution = r ∧ err.chunk_index = some c.index) := by
  unfold runTargets at hterr hcomp ⊢
  have hne := targets_ne_of_terrs env _ sp.chunks hterr
  rw [runVideoWorkflow_stage4 vid yurl optd env hdl md hmd,
    runFromStage4_transcodeError _ _ _ _ _ _ _ _ hne hsp hterr hcomp]
  exact ⟨rfl, rfl, rfl,
    fun r hr c hc e he => transcodeErrorsOf_mem env _ sp.chunks r c hr hc e he⟩

/-- Witness for C2: every transcode work unit of a 10-chunk, 3-resolution
run fails. -/
theorem run_total_transcode_failure_witness :
    (∀ u, (Option.none : Option String) = some u →
      envAllFail.downloadOutcome = .ok ()) ∧
    envAllFail.metadataOutcome =
      .ok { width := 1920, height := 1080, duration := 40 } ∧
    envAllFail.splitOutcome = .ok { chunks := wChunks 10, chunk_count := 10, manifest_key := "vid/source/manifest.json" } ∧
    transcodeErrorsOf envAllFail (transcodeTasks
      (runTargets Option.none { width := 1920, height := 1080, duration := 40 })
      (wChunks 10)) ≠ [] ∧
    completeResolutions envAllFail
      (runTargets Option.none { width := 1920, height := 1080, duration := 40 })
      (wChunks 10) 10 = [] ∧
    ((runVideoWorkflow "vid" Option.none Option.none envAllFail).1.success = false ∧
      (runVideoWorkflow "vid" Option.none Option.none envAllFail).1.stage =
        some "transcode") :=
  ⟨(fun u h => nomatch h), rfl, rfl, by decide, by decide,
    ⟨(run_total_transcode_failure "vid" Option.none Option.none envAllFail
      (fun u h => nomatch h) _ rfl _ rfl (by decide) (by decide)).1,
    (run_total_transcode_failure "vid" Option.none Option.none envAllFail
      (fun u h => nomatch h) _ rfl _ rfl (by decide) (by decide)).2.1⟩⟩

/-- C1 as stated is false: in the spec's partial-failure scenario (chunk 5
of 720p fails, 480p and 320p complete) a run whose playlist uploads all fail
has some failed work units and complete resolutions, yet ends with
`success = false` — success is decided only after playlist generation. -/
theorem run_partial_success_counterexample :
    transcodeErrorsOf envPartialNoPlaylists (transcodeTasks
      (runTargets Option.none { width := 1920, height := 1080, duration := 40 })
      (wChunks 10)) ≠ [] ∧
    completeResolutions envPartialNoPlaylists
      (runTargets Option.none { width := 1920, height := 1080, duration := 40 })
      (wChunks 10) 10 ≠ [] ∧
    (runVideoWorkflow "vid" Option.none Option.none envPartialNoPlaylists).1.success
      = false := by
  refine ⟨by decide, by decide, ?_⟩
  decide

/-- C1 (amended): partial success is first-class.  When some transcode work
units fail but at least one target resolution is complete, and at least one
complete resolution's variant playlist is generated successfully (playlist
results carry their requested resolution, as `generate_hls_playlist`
guarantees), the final result has `success=True`, its variants list contains
entries only for the complete resolutions, and its errors list contains one
entry naming the resolution and chunk index of every failed work unit.  (A
run whose playlist uploads all fail ends with `success=False` instead.) -/
theorem run_partial_success (vid : String) (yurl : Option String)
    (optd : Option OptionsDict) (env : Env)
    (hdl : ∀ u, yurl = some u → env.downloadOutcome = .ok ())
    (md : Metadata) (hmd : env.metadataOutcome = .ok md)
    (sp : SplitResult) (hsp : env.splitOutcome = .ok sp)
    (hterr : transcodeErrorsOf env
      (transcodeTasks (runTargets optd md) sp.chunks) ≠ [])
    (hcomp : completeResolutions env (runTargets optd md) sp.chunks
      sp.chunk_count ≠ [])
    (hone : ∃ r ∈ completeResolutions env (runTargets optd md) sp.chunks
      sp.chunk_count, ∃ v, env.playlistOutcome r = .ok v)
    (hres : ∀ r v, env.playlistOutcome r = .ok v → v.resolution = r) :
    (runVideoWorkflow vid yurl optd env).1.success = true ∧
      (∃ hi, (runVideoWorkflow vid yurl optd env).1.hls = some hi ∧
        ∀ entry ∈ hi.variants, entry.resolution ∈
          completeResolutions env (runTargets optd md) sp.chunks
            sp.chunk_count) ∧
      (∃ es, (runVideoWorkflow vid yurl optd env).1.errors = some es ∧
        ∀ r ∈ runTargets optd md, ∀ c ∈ sp.chunks, ∀ e,
          env.transcodeOutcome r c.index = .error e →
          ∃ err ∈ es, err.resolution = r ∧ err.chunk_index = some c.index) := by
  unfold runTargets at hterr hcomp hone ⊢
  have hne := targets_ne_of_terrs env _ sp.chunks hterr
  rw [runVideoWorkflow_stage4 vid yurl optd env hdl md hmd,
    runFromStage4_someComplete _ _ _ _ _ _ _ _ hne hsp hterr hcomp]
  obtain ⟨hs, hh, he⟩ := finalizeStages_partialOk vid md _ _ _ env
    sp.chunk_count _ _ hone hres hterr
  obtain ⟨es, hes, hsub⟩ := he
  refine ⟨hs, hh, es, hes, ?_⟩
  intro r hr c hc e hfail
  obtain ⟨err, herr, h1, h2⟩ :=
    transcodeErrorsOf_mem env _ sp.chunks r c hr hc e hfail
  exact ⟨err, hsub err herr, h1, h2⟩

/-- Witness for the amended C1 at the spec's scenario: 10 chunks, three
resolutions, chunk 5 failing for 720p, playlists succeeding. -/
theorem run_partial_success_witness :
    (∀ u, (Option.none : Option String) = some u →
      envPartial.downloadOutcome = .ok ()) ∧
    envPartial.metadataOutcome =
      .ok { width := 1920, height := 1080, duration := 40 } ∧
    envPartial.splitOutcome = .ok { chunks := wChunks 10, chunk_count := 10, manifest_key := "vid/source/manifest.json" } ∧
    transcodeErrorsOf envPartial (transcodeTasks
      (runTargets Option.none { width := 1920, height := 1080, duration := 40 })
      (wChunks 10)) ≠ [] ∧
    completeResolutions envPartial
      (runTargets Option.none { width := 1920, height := 1080, duration := 40 })
      (wChunks 10) 10 ≠ [] ∧
    ((runVideoWorkflow "vid" Option.none Option.none envPartial).1.success = true ∧
      (∃ hi, (runVideoWorkflow "vid" Option.none Option.none envPartial).1.hls =
          some hi ∧
        ∀ entry ∈ hi.variants, entry.resolution ∈
          completeResolutions envPartial
            (runTargets Option.none { width := 1920, height := 1080, duration := 40 })
            (wChunks 10) 10) ∧
      (∃ es, (runVideoWorkflow "vid" Option.none Option.none envPartial).1.errors =
          some es ∧
        ∀ r ∈ runTargets Option.none { width := 1920, height := 1080, duration := 40 },
          ∀ c ∈ wChunks 10, ∀ e,
          envPartial.transcodeOutcome r c.index = .error e →
          ∃ err ∈ es, err.resolution = r ∧ err.chunk_index = some c.index)) :=
  ⟨(fun u h => nomatch h), rfl, rfl, by decide, by decide,
    run_partial_success "vid" Option.none Option.none envPartial
      (fun u h => nomatch h) _ rfl _ rfl (by decide) (by decide)
      (by exact ⟨"480p", by decide, _, rfl⟩)
      (fun r v hv => by
        simp only [envPartial, baseEnv, okVariant] at hv
        rw [(Except.ok.inj hv).symm])⟩

/-- C8: optional-branch failures never abort the pipeline.  An enabled
thumbnail or scene-detection branch that fails (raises or returns
`success=False`) is recorded as a warning naming the component in the
result; the final success flag is unchanged under any replacement of the two
branch outcomes; and with a non-empty target list the run still attempts the
split stage and (when splitting succeeded) the transcode stage. -/
theorem run_optional_branch_failures (vid : String) (yurl : Option String)
    (optd : Option OptionsDict) (env : Env)
    (tout : Except String ThumbRes) (sout : Except String SceneRes)
    (hdl : ∀ u, yurl = some u → env.downloadOutcome = .ok ())
    (md : Metadata) (hmd : env.metadataOutcome = .ok md) :
    (((ProcessingOptions.fromDict (optd.getD {})).thumbnail.mode ≠ ThumbMode.none →
      thumbFailed env.thumbnailOutcome →
      ∃ ws, (runVideoWorkflow vid yurl optd env).1.warnings = some ws ∧
        ∃ wentry ∈ ws, wentry.component = "thumbnail") ∧
    ((ProcessingOptions.fromDict (optd.getD {})).chapters.enabled = true →
      sceneFailed env.sceneOutcome →
      ∃ ws, (runVideoWorkflow vid yurl optd env).1.warnings = some ws ∧
        ∃ wentry ∈ ws, wentry.component = "scene_detection") ∧
    (runVideoWorkflow vid yurl optd env).1.success =
      (runVideoWorkflow vid yurl optd
        { env with thumbnailOutcome := tout, sceneOutcome := sout }).1.success ∧
    (runTargets optd md ≠ [] →
      "split" ∈ (runVideoWorkflow vid yurl optd env).2 ∧
      ((∃ sp, env.splitOutcome = .ok sp) →
        "transcode" ∈ (runVideoWorkflow vid yurl optd env).2))) := by
  have hrw := runVideoWorkflow_stage4 vid yurl optd env hdl md hmd
  have hdl' : ∀ u, yurl = some u →
      ({ env with thumbnailOutcome := tout, sceneOutcome := sout } : Env).downloadOutcome = .ok () := hdl
  have hmd' : ({ env with thumbnailOutcome := tout, sceneOutcome := sout } : Env).metadataOutcome = .ok md := hmd
  have hrw' := runVideoWorkflow_stage4 vid yurl optd
    { env with thumbnailOutcome := tout, sceneOutcome := sout } hdl' md hmd'
  refine ⟨?_, ?_, ?_, ?_⟩
  · intro hen hf
    rw [hrw]
    obtain ⟨wentry, hw, hwcomp⟩ :=
      thumbBranch_warning (ProcessingOptions.fromDict (optd.getD {})) env hen hf
    obtain ⟨ws, hws, hmem⟩ := runFromStage4_warnings_mem vid
      (ProcessingOptions.fromDict (optd.getD {})) md _ _ _ env wentry
      (List.mem_append_left _ hw)
    exact ⟨ws, hws, wentry, hmem, hwcomp⟩
  · intro hen hf
    rw [hrw]
    obtain ⟨wentry, hw, hwcomp⟩ :=
      sceneBranch_warning (ProcessingOptions.fromDict (optd.getD {})) env hen hf
    obtain ⟨ws, hws, hmem⟩ := runFromStage4_warnings_mem vid
      (ProcessingOptions.fromDict (optd.getD {})) md _ _ _ env wentry
      (List.mem_append_right _ hw)
    exact ⟨ws, hws, wentry, hmem, hwcomp⟩
  · rw [hrw, hrw']
    exact runFromStage4_success_eq vid (ProcessingOptions.fromDict (optd.getD {}))
      md _ _ _ _ _ _ env
      { env with thumbnailOutcome := tout, sceneOutcome := sout } rfl rfl rfl
  · intro hne
    unfold runTargets at hne
    rw [hrw]
    have hr := runFromStage4_reaches vid
      (ProcessingOptions.fromDict (optd.getD {})) md
      (thumbBranch (ProcessingOptions.fromDict (optd.getD {})) env).1
      (sceneBranch (ProcessingOptions.fromDict (optd.getD {})) env).1
      ((thumbBranch (ProcessingOptions.fromDict (optd.getD {})) env).2.1 ++
        (sceneBranch (ProcessingOptions.fromDict (optd.getD {})) env).2.1)
      env hne
    exact ⟨List.mem_append_right _ hr.1,
      fun hsp => List.mem_append_right _ (hr.2 hsp)⟩

/-- Witness for C8: thumbnail raises, scene detection returns
`success=False`, replacements are the fully successful outcomes. -/
theorem run_optional_branch_failures_witness :
    (∀ u, (Option.none : Option String) = some u →
      envBranchesFail.downloadOutcome = .ok ()) ∧
    envBranchesFail.metadataOutcome =
      .ok { width := 1920, height := 1080, duration := 40 } ∧
    (((ProcessingOptions.fromDict (optdBranches.getD {})).thumbnail.mode ≠
        ThumbMode.none →
      thumbFailed envBranchesFail.thumbnailOutcome →
      ∃ ws, (runVideoWorkflow "vid" Option.none optdBranches envBranchesFail).1.warnings
          = some ws ∧
        ∃ wentry ∈ ws, wentry.component = "thumbnail") ∧
    ((ProcessingOptions.fromDict (optdBranches.getD {})).chapters.enabled = true →
      sceneFailed envBranchesFail.sceneOutcome →
      ∃ ws, (runVideoWorkflow "vid" Option.none optdBranches envBranchesFail).1.warnings
          = some ws ∧
        ∃ wentry ∈ ws, wentry.component = "scene_detection") ∧
    (runVideoWorkflow "vid" Option.none optdBranches envBranchesFail).1.success =
      (runVideoWorkflow "vid" Option.none optdBranches { envBranchesFail with thumbnailOutcome := baseEnv.thumbnailOutcome, sceneOutcome := baseEnv.sceneOutcome }).1.success ∧
    (runTargets optdBranches { width := 1920, height := 1080, duration := 40 } ≠ [] →
      "split" ∈ (runVideoWorkflow "vid" Option.none optdBranches envBranchesFail).2 ∧
      ((∃ sp, envBranchesFail.splitOutcome = .ok sp) →
        "transcode" ∈
          (runVideoWorkflow "vid" Option.none optdBranches envBranchesFail).2))) :=
  ⟨(fun u h => nomatch h), rfl,
    run_optional_branch_failures "vid" Option.none optdBranches envBranchesFail
      baseEnv.thumbnailOutcome baseEnv.sceneOutcome
      (fun u h => nomatch h) _ rfl⟩

end VideoPipeline
